import Mathlib

/-!
# baton-pulumi-cloud: resource, entitlement and grant mapping

A shallow embedding of `pkg/client/client.go` and `pkg/connector/{org,team,user}.go`.

* Go strings are Lean `String`s, Go pointers are `Option`s, Go slices are `List`s
  (a nil slice and an empty slice are both `[]`).
* Go `error` values are terms of `Error`; a returned `error` is `Option Error`.
* The HTTP transport (`net/url`, `uhttp`) is outside the repository and is taken
  as a parameter, the record `Http`.
* Every operation of a builder returns, next to its Go results, the list of
  client methods it invoked (`Call`), in order.
* A nil dereference is a panic; operations that can panic return `Option`.
-/

set_option linter.dupNamespace false
set_option linter.unusedVariables false

namespace Pulumi

/-! ## Errors -/

/-- Go error values: `errorf` is `fmt.Errorf` without a wrapped cause, `wrap` is
`fmt.Errorf("<msg>: %w", cause)`, `external` is an error made outside the repository. -/
inductive Error where
  | errorf (msg : String)
  | wrap (msg : String) (cause : Error)
  | external (msg : String)
  deriving DecidableEq, Repr

/-! ## Protocol messages (`v2`), the fields the connector reads or writes -/

/-- The message `v2.ResourceId`. -/
structure ResourceId where
  ResourceType : String
  Resource : String
  deriving DecidableEq, Repr

/-- The enum `v2.ResourceType_Trait`. -/
inductive Trait where
  | TRAIT_USER
  | TRAIT_GROUP
  deriving DecidableEq, Repr

/-- The message `v2.ResourceType`. -/
structure ResourceType where
  Id : String
  DisplayName : String
  Description : String
  Traits : List Trait
  deriving DecidableEq, Repr

/-- The enum `v2.UserTrait_Status_Status`. -/
inductive Status where
  | STATUS_UNSPECIFIED
  | STATUS_ENABLED
  | STATUS_DISABLED
  | STATUS_DELETED
  deriving DecidableEq, Repr

/-- The enum `v2.UserTrait_AccountType`. -/
inductive AccountType where
  | ACCOUNT_TYPE_UNSPECIFIED
  | ACCOUNT_TYPE_HUMAN
  | ACCOUNT_TYPE_SERVICE
  | ACCOUNT_TYPE_SYSTEM
  deriving DecidableEq, Repr

/-- A profile map `map[string]interface{}` whose values are strings, as key/value pairs. -/
abbrev Profile := List (String × String)

/-- The message `v2.UserTrait`. -/
structure UserTrait where
  Login : String
  Profile : Profile
  Status : Option Status
  AccountType : AccountType
  deriving DecidableEq, Repr

/-- The message `v2.GroupTrait`. -/
structure GroupTrait where
  Profile : Profile
  deriving DecidableEq, Repr

/-- The trait annotations a resource carries. -/
inductive TraitValue where
  | user (t : UserTrait)
  | group (t : GroupTrait)
  deriving DecidableEq, Repr

/-- The type `annotations.Annotations`. -/
abbrev Annotations := List TraitValue

/-- The message `v2.Resource`. -/
structure Resource where
  Id : Option ResourceId
  ParentResourceId : Option ResourceId
  DisplayName : String
  Annotations : Annotations
  deriving DecidableEq, Repr

/-- The enum `v2.Entitlement_PurposeValue`. -/
inductive PurposeValue where
  | PURPOSE_VALUE_UNSPECIFIED
  | PURPOSE_VALUE_ASSIGNMENT
  | PURPOSE_VALUE_PERMISSION
  deriving DecidableEq, Repr

/-- The message `v2.Entitlement`. -/
structure Entitlement where
  Resource : Option Resource
  Id : String
  DisplayName : String
  Description : String
  GrantableTo : List ResourceType
  Purpose : PurposeValue
  Slug : String
  deriving DecidableEq, Repr

/-- The message `v2.Grant`. -/
structure Grant where
  Entitlement : Option Entitlement
  Principal : Option Resource
  Id : String
  deriving DecidableEq, Repr

/-- The struct `pagination.Token`. -/
structure Token where
  Size : Int
  Token : String
  deriving DecidableEq, Repr

/-! ## `pkg/connector/resource_types.go` -/

def userResourceType : ResourceType :=
  { Id := "user", DisplayName := "User", Description := "Pulumi user",
    Traits := [Trait.TRAIT_USER] }

def teamResourceType : ResourceType :=
  { Id := "team", DisplayName := "Team", Description := "Pulumi team",
    Traits := [Trait.TRAIT_GROUP] }

def orgResourceType : ResourceType :=
  { Id := "organization", DisplayName := "Organization", Description := "Pulumi organization",
    Traits := [] }

/-! ## `pkg/client/client.go` -/

/-- The struct `client.UserInfo`. -/
structure UserInfo where
  Name : String
  GithubLogin : String
  AvatarUrl : String
  deriving DecidableEq, Repr

/-- The struct `client.User`. -/
structure User where
  Role : String
  User : UserInfo
  Created : String
  KnownToPulumi : Bool
  VirtualAdmin : Bool
  deriving DecidableEq, Repr

/-- The struct `client.Team`. -/
structure Team where
  Kind : String
  Name : String
  DisplayName : String
  Description : String
  Members : List UserInfo
  UserRole : String
  deriving DecidableEq, Repr

/-- The struct `client.ListUsersResponse`. -/
structure ListUsersResponse where
  Members : List User
  ContinuationToken : String
  deriving DecidableEq, Repr

/-- The struct `client.ListTeamsResponse`. -/
structure ListTeamsResponse where
  Teams : List Team
  deriving DecidableEq, Repr

/-! ### The transport, outside the repository -/

/-- The struct `url.URL`, the fields the client reads or writes. -/
structure URL where
  Scheme : String
  Host : String
  Path : String
  RawQuery : String
  deriving DecidableEq, Repr

/-- The type `url.Values`, a map from a key to its values, as a list of entries
with distinct keys. -/
structure Values where
  entries : List (String × List String)
  deriving DecidableEq, Repr

/-- The method `url.Values.Set`: the values of `key` become the single `value`. -/
def Values.Set (v : Values) (key value : String) : Values :=
  ⟨(key, [value]) :: v.entries.filter (fun kv => decide (kv.1 ≠ key))⟩

/-- The method `url.Values.Has`: whether `key` is set. -/
def Values.Has (v : Values) (key : String) : Bool :=
  v.entries.any (fun kv => decide (kv.1 = key))

/-- The method `url.Values.Get`: the first value of `key`, or the empty string. -/
def Values.Get (v : Values) (key : String) : String :=
  match v.entries.find? (fun kv => decide (kv.1 = key)) with
  | some (_, value :: _) => value
  | _ => ""

/-- The request options (`uhttp.RequestOption`) the client builds. -/
inductive RequestOption where
  | WithHeader (name value : String)
  | WithJSONBody (body : List (String × String))
  deriving DecidableEq, Repr

/-- A request made by `uhttp.BaseHttpClient.NewRequest`. -/
structure Request where
  Method : String
  URL : URL
  Options : List RequestOption
  deriving DecidableEq, Repr

/-- The transport the client is built on (`net/url` and `uhttp.BaseHttpClient`), which
is not part of the repository: URL parsing and encoding, request construction, and
`Do` for each type of response body the client decodes. -/
structure Http where
  Parse : String → Except Error URL
  ResolveReference : URL → URL → URL
  Encode : Values → String
  NewRequest : String → URL → List RequestOption → Except Error Request
  DoListUsers : Request → Except Error ListUsersResponse
  DoListTeams : Request → Except Error ListTeamsResponse
  DoTeam : Request → Except Error Team
  Do : Request → Option Error

/-- The struct `client.Client`. -/
structure Client where
  baseHttpClient : Http
  baseURL : URL
  token : String

/-- The method `Client.requestOptions`. -/
def Client.requestOptions (c : Client) (body : Option (List (String × String))) :
    List RequestOption :=
  let options := [
    RequestOption.WithHeader "Authorization" ("token " ++ c.token),
    RequestOption.WithHeader "Accept" "application/vnd.pulumi+8",
    RequestOption.WithHeader "Accept" "application/json",
    RequestOption.WithHeader "Content-Type" "application/json"]
  match body with
  | some b => options ++ [RequestOption.WithJSONBody b]
  | none => options

/-- The method `Client.buildURL`. -/
def Client.buildURL (c : Client) (path : String) (queryParams : Option Values) :
    Except Error URL :=
  match c.baseHttpClient.Parse ("/api/" ++ path) with
  | .error err => .error (.wrap "failed to parse request URL" err)
  | .ok reqURL =>
    let reqURL := c.baseHttpClient.ResolveReference c.baseURL reqURL
    match queryParams with
    | some q => .ok { reqURL with RawQuery := c.baseHttpClient.Encode q }
    | none => .ok reqURL

/-- The query parameters `Client.ListUsers` builds (its first five lines). -/
def ListUsersQuery (continuationToken : String) : Values :=
  let queryParams := (Values.mk []).Set "type" "backend"
  if continuationToken ≠ "" then
    queryParams.Set "continuationToken" continuationToken
  else
    queryParams

/-- The method `Client.ListUsers`. -/
def Client.ListUsers (c : Client) (orgName continuationToken : String) :
    Except Error ListUsersResponse :=
  let queryParams := ListUsersQuery continuationToken
  match c.buildURL ("orgs/" ++ orgName ++ "/members") (some queryParams) with
  | .error err => .error err
  | .ok reqURL =>
    match c.baseHttpClient.NewRequest "GET" reqURL (c.requestOptions none) with
    | .error err => .error (.wrap "failed to create request" err)
    | .ok req =>
      match c.baseHttpClient.DoListUsers req with
      | .error err => .error (.wrap "failed to list users" err)
      | .ok response => .ok response

/-- The method `Client.ListTeams`. -/
def Client.ListTeams (c : Client) (orgName : String) : Except Error (List Team) :=
  match c.buildURL ("orgs/" ++ orgName ++ "/teams") none with
  | .error err => .error err
  | .ok reqURL =>
    match c.baseHttpClient.NewRequest "GET" reqURL (c.requestOptions none) with
    | .error err => .error (.wrap "failed to create request" err)
    | .ok req =>
      match c.baseHttpClient.DoListTeams req with
      | .error err => .error (.wrap "failed to list teams" err)
      | .ok response => .ok response.Teams

/-- The method `Client.GetTeam`. -/
def Client.GetTeam (c : Client) (orgName teamName : String) : Except Error Team :=
  match c.buildURL ("orgs/" ++ orgName ++ "/teams/" ++ teamName) none with
  | .error err => .error err
  | .ok reqURL =>
    match c.baseHttpClient.NewRequest "GET" reqURL (c.requestOptions none) with
    | .error err => .error (.wrap "failed to create request" err)
    | .ok req =>
      match c.baseHttpClient.DoTeam req with
      | .error err => .error (.wrap "failed to get team" err)
      | .ok team => .ok team

/-- The method `Client.RemoveUser`. -/
def Client.RemoveUser (c : Client) (orgName username : String) : Option Error :=
  match c.buildURL ("orgs/" ++ orgName ++ "/members/" ++ username) none with
  | .error err => some err
  | .ok reqURL =>
    match c.baseHttpClient.NewRequest "DELETE" reqURL (c.requestOptions none) with
    | .error err => some (.wrap "failed to create request" err)
    | .ok req =>
      match c.baseHttpClient.Do req with
      | some err => some (.wrap "failed to remove user" err)
      | none => none

/-- The method `Client.UpdateUserRole`. -/
def Client.UpdateUserRole (c : Client) (orgName username role : String) : Option Error :=
  match c.buildURL ("orgs/" ++ orgName ++ "/members/" ++ username) none with
  | .error err => some err
  | .ok reqURL =>
    let body := [("role", role)]
    match c.baseHttpClient.NewRequest "PATCH" reqURL (c.requestOptions (some body)) with
    | .error err => some (.wrap "failed to create request" err)
    | .ok req =>
      match c.baseHttpClient.Do req with
      | some err => some (.wrap "failed to update user role" err)
      | none => none

/-- The method `Client.UpdateTeamMembership`. -/
def Client.UpdateTeamMembership (c : Client) (orgName teamName username action : String) :
    Option Error :=
  match c.buildURL ("orgs/" ++ orgName ++ "/teams/" ++ teamName) none with
  | .error err => some err
  | .ok reqURL =>
    let body := [("memberAction", action), ("member", username)]
    match c.baseHttpClient.NewRequest "PATCH" reqURL (c.requestOptions (some body)) with
    | .error err => some (.wrap "failed to create request" err)
    | .ok req =>
      match c.baseHttpClient.Do req with
      | some err => some (.wrap "failed to update team membership" err)
      | none => none

/-- A client method invoked by a builder, with its arguments. -/
inductive Call where
  | ListUsers (orgName continuationToken : String)
  | ListTeams (orgName : String)
  | GetTeam (orgName teamName : String)
  | RemoveUser (orgName username : String)
  | UpdateUserRole (orgName username role : String)
  | UpdateTeamMembership (orgName teamName username action : String)
  deriving DecidableEq, Repr

/-! ## The SDK constructors the connector calls

`baton-sdk` (`pkg/types/resource`, `pkg/types/entitlement`, `pkg/types/grant`) is a
dependency, not part of the repository. Its constructors are given by the fields they
set; a constructor that dereferences a nil `resource` or a nil `resource.Id` panics,
which is the result `none`. -/

/-- Runs a list of fallible options over a value, stopping at the first error. -/
def applyOptions {α : Type} : List (α → Except Error α) → α → Except Error α
  | [], a => .ok a
  | opt :: opts, a =>
    match opt a with
    | .error err => .error err
    | .ok b => applyOptions opts b

/-- The type `resource.ResourceOption`. -/
abbrev ResourceOption := Resource → Except Error Resource

/-- The type `resource.GroupTraitOption`. -/
abbrev GroupTraitOption := GroupTrait → Except Error GroupTrait

/-- The type `resource.UserTraitOption`. -/
abbrev UserTraitOption := UserTrait → Except Error UserTrait

/-- The SDK function `resource.NewResourceID` at a string object id. -/
def NewResourceID (resourceType : ResourceType) (objectID : String) : ResourceId :=
  { ResourceType := resourceType.Id, Resource := objectID }

/-- The SDK function `resource.NewResource` at a string object id. -/
def NewResource (name : String) (resourceType : ResourceType) (objectID : String)
    (resourceOptions : List ResourceOption) : Except Error Resource :=
  applyOptions resourceOptions
    { Id := some (NewResourceID resourceType objectID), ParentResourceId := none,
      DisplayName := name, Annotations := [] }

/-- The SDK option `resource.WithParentResourceID`. -/
def WithParentResourceID (parentResourceID : Option ResourceId) : ResourceOption :=
  fun r => .ok { r with ParentResourceId := parentResourceID }

/-- The SDK option `resource.WithGroupProfile`. -/
def WithGroupProfile (profile : Profile) : GroupTraitOption :=
  fun gt => .ok { gt with Profile := profile }

/-- Whether an annotation is a group trait. -/
def TraitValue.isGroup : TraitValue → Bool
  | .group _ => true
  | _ => false

/-- Whether an annotation is a user trait. -/
def TraitValue.isUser : TraitValue → Bool
  | .user _ => true
  | _ => false

/-- The SDK option `resource.WithGroupTrait`: builds the group trait from its options
and stores it as the resource's group-trait annotation. -/
def WithGroupTrait (opts : List GroupTraitOption) : ResourceOption :=
  fun r =>
    match applyOptions opts { Profile := [] } with
    | .error err => .error err
    | .ok gt =>
      .ok { r with Annotations := r.Annotations.filter (fun a => !a.isGroup) ++ [.group gt] }

/-- The SDK function `resource.NewGroupResource` at a string object id. -/
def NewGroupResource (name : String) (resourceType : ResourceType) (objectID : String)
    (groupOptions : List GroupTraitOption) (opts : List ResourceOption) :
    Except Error Resource :=
  NewResource name resourceType objectID (opts ++ [WithGroupTrait groupOptions])

/-- The SDK option `resource.WithUserLogin`; an empty login leaves the trait as it is. -/
def WithUserLogin (login : String) : UserTraitOption :=
  fun ut => if login = "" then .ok ut else .ok { ut with Login := login }

/-- The SDK option `resource.WithUserProfile`. -/
def WithUserProfile (profile : Profile) : UserTraitOption :=
  fun ut => .ok { ut with Profile := profile }

/-- The SDK option `resource.WithStatus`. -/
def WithStatus (status : Status) : UserTraitOption :=
  fun ut => .ok { ut with Status := some status }

/-- The SDK option `resource.WithAccountType`. -/
def WithAccountType (accountType : AccountType) : UserTraitOption :=
  fun ut => .ok { ut with AccountType := accountType }

/-- The SDK function `resource.NewUserTrait`: a status left unset becomes enabled. -/
def NewUserTrait (opts : List UserTraitOption) : Except Error UserTrait :=
  match applyOptions opts
      { Login := "", Profile := [], Status := none,
        AccountType := AccountType.ACCOUNT_TYPE_UNSPECIFIED } with
  | .error err => .error err
  | .ok ut =>
    match ut.Status with
    | none => .ok { ut with Status := some Status.STATUS_ENABLED }
    | some _ => .ok ut

/-- The SDK option `resource.WithUserTrait`. -/
def WithUserTrait (opts : List UserTraitOption) : ResourceOption :=
  fun r =>
    match NewUserTrait opts with
    | .error err => .error err
    | .ok ut =>
      .ok { r with Annotations := r.Annotations.filter (fun a => !a.isUser) ++ [.user ut] }

/-- The SDK function `resource.NewUserResource` at a string object id. -/
def NewUserResource (name : String) (resourceType : ResourceType) (objectID : String)
    (userTraitOpts : List UserTraitOption) (opts : List ResourceOption) :
    Except Error Resource :=
  NewResource name resourceType objectID (opts ++ [WithUserTrait userTraitOpts])

/-- The SDK function `entitlement.NewEntitlementID`:
`fmt.Sprintf("%s:%s:%s", resource.Id.ResourceType, resource.Id.Resource, permission)`. -/
def NewEntitlementID (resource : Option Resource) (permission : String) : Option String :=
  match resource with
  | none => none
  | some r =>
    match r.Id with
    | none => none
    | some id => some (id.ResourceType ++ ":" ++ id.Resource ++ ":" ++ permission)

/-- The type `entitlement.EntitlementOption`. -/
abbrev EntitlementOption := Entitlement → Entitlement

/-- The SDK option `entitlement.WithGrantableTo`. -/
def WithGrantableTo (grantableTo : List ResourceType) : EntitlementOption :=
  fun e => { e with GrantableTo := grantableTo }

/-- The SDK option `entitlement.WithDescription`. -/
def WithDescription (description : String) : EntitlementOption :=
  fun e => { e with Description := description }

/-- The SDK option `entitlement.WithDisplayName`. -/
def WithDisplayName (displayName : String) : EntitlementOption :=
  fun e => { e with DisplayName := displayName }

/-- The common body of the SDK functions `entitlement.NewAssignmentEntitlement` and
`entitlement.NewPermissionEntitlement`. -/
def newEntitlement (purpose : PurposeValue) (resource : Option Resource) (name : String)
    (entitlementOptions : List EntitlementOption) : Option Entitlement :=
  match NewEntitlementID resource name with
  | none => none
  | some id =>
    some (entitlementOptions.foldl (fun e opt => opt e)
      { Resource := resource, Id := id, DisplayName := name, Description := "",
        GrantableTo := [], Purpose := purpose, Slug := name })

/-- The SDK function `entitlement.NewAssignmentEntitlement`. -/
def NewAssignmentEntitlement (resource : Option Resource) (name : String)
    (entitlementOptions : List EntitlementOption) : Option Entitlement :=
  newEntitlement PurposeValue.PURPOSE_VALUE_ASSIGNMENT resource name entitlementOptions

/-- The SDK function `entitlement.NewPermissionEntitlement`. -/
def NewPermissionEntitlement (resource : Option Resource) (name : String)
    (entitlementOptions : List EntitlementOption) : Option Entitlement :=
  newEntitlement PurposeValue.PURPOSE_VALUE_PERMISSION resource name entitlementOptions

/-- The SDK function `grant.NewGrant` at a principal given as a `*v2.ResourceId`: the
entitlement carries only its id and resource, the principal only its id. -/
def NewGrant (resource : Option Resource) (entitlementName : String) (principal : ResourceId) :
    Option Grant :=
  match NewEntitlementID resource entitlementName with
  | none => none
  | some entID =>
    some
      { Entitlement := some
          { Resource := resource, Id := entID, DisplayName := "", Description := "",
            GrantableTo := [], Purpose := PurposeValue.PURPOSE_VALUE_UNSPECIFIED, Slug := "" },
        Principal := some
          { Id := some principal, ParentResourceId := none, DisplayName := "",
            Annotations := [] },
        Id := entID ++ ":" ++ principal.ResourceType ++ ":" ++ principal.Resource }

/-! ## Loops -/

/-- A Go loop that appends `f a` for each element and returns at the first error. -/
def collect {α β : Type} (f : α → Except Error β) : List α → Except Error (List β)
  | [] => .ok []
  | a :: as =>
    match f a with
    | .error err => .error err
    | .ok b =>
      match collect f as with
      | .error err => .error err
      | .ok bs => .ok (b :: bs)

/-- A Go loop that appends `f a` for each element, where `f a` may panic (`none`). -/
def collectSome {α β : Type} (f : α → Option β) : List α → Option (List β)
  | [] => some []
  | a :: as =>
    match f a with
    | none => none
    | some b =>
      match collectSome f as with
      | none => none
      | some bs => some (b :: bs)

/-! ## Results of the builder operations -/

/-- The results `([]T, string, annotations.Annotations, error)` of `List`,
`Entitlements` and `Grants`, and the client methods invoked. -/
structure ListResult (α : Type) where
  rv : List α
  nextPageToken : String
  annos : Annotations
  err : Option Error
  calls : List Call
  deriving DecidableEq, Repr

/-- The results `([]*v2.Grant, annotations.Annotations, error)` of `Grant`, and the
client methods invoked. -/
structure GrantResult where
  grants : List Grant
  annos : Annotations
  err : Option Error
  calls : List Call
  deriving DecidableEq, Repr

/-- The results `(annotations.Annotations, error)` of `Revoke`, and the client methods
invoked. -/
structure RevokeResult where
  annos : Annotations
  err : Option Error
  calls : List Call
  deriving DecidableEq, Repr

/-! ## `pkg/connector/org.go` -/

def entitlementSlugAdmin : String := "admin"
def entitlementSlugMember : String := "member"
def roleAdmin : String := "admin"
def roleMember : String := "member"

/-- The struct `orgBuilder`. -/
structure orgBuilder where
  resourceType : ResourceType
  client : Client
  orgName : String

/-- The function `orgResource`. -/
def orgResource (orgName : String) : Except Error Resource :=
  NewResource orgName orgResourceType orgName []

/-- The method `orgBuilder.List`. -/
def orgBuilder.List (o : orgBuilder) (parentResourceID : Option ResourceId)
    (pToken : Option Token) : ListResult Resource :=
  match orgResource o.orgName with
  | .error err =>
    { rv := [], nextPageToken := "", annos := [],
      err := some (.wrap "failed to create org resource" err), calls := [] }
  | .ok resource =>
    { rv := [resource], nextPageToken := "", annos := [], err := none, calls := [] }

/-- The function `formatResourceID`: `strings.Join(parts, ":")`. -/
def formatResourceID (parts : List String) : String :=
  ":".intercalate parts

/-- The method `orgBuilder.Entitlements`. -/
def orgBuilder.Entitlements (o : orgBuilder) (resource : Option Resource)
    (pToken : Option Token) : Option (ListResult Entitlement) :=
  match NewAssignmentEntitlement resource entitlementSlugMember
      [WithGrantableTo [userResourceType],
       WithDescription "Member of the Pulumi organization",
       WithDisplayName "Member"] with
  | none => none
  | some memberEnt =>
    match NewPermissionEntitlement resource entitlementSlugAdmin
        [WithGrantableTo [userResourceType],
         WithDescription "Administrator of the Pulumi organization",
         WithDisplayName "Administrator"] with
    | none => none
    | some adminEnt =>
      some { rv := [memberEnt, adminEnt], nextPageToken := "", annos := [], err := none,
             calls := [] }

/-- The slug `orgBuilder.Grants` computes for a member: `entSlug` in the loop body. -/
def entSlug (member : User) : String :=
  if member.Role = roleAdmin then entitlementSlugAdmin else entitlementSlugMember

/-- The body of the loop of `orgBuilder.Grants`: the grant made for one member. -/
def orgBuilder.memberGrant (o : orgBuilder) (resource : Option Resource) (member : User) :
    Option Grant :=
  let principalId : ResourceId :=
    { ResourceType := userResourceType.Id, Resource := member.User.GithubLogin }
  match NewGrant resource (entSlug member) principalId with
  | none => none
  | some g =>
    let g := { g with
      Id := formatResourceID ["org", o.orgName, "grant", member.User.GithubLogin, entSlug member] }
    match g.Principal with
    | none => none
    | some principal =>
      some { g with Principal := some { principal with DisplayName := member.User.Name } }

/-- The method `orgBuilder.Grants`. -/
def orgBuilder.Grants (o : orgBuilder) (resource : Option Resource) (pToken : Option Token) :
    Option (ListResult Grant) :=
  let token : String :=
    match pToken with
    | some t => t.Token
    | none => ""
  match o.client.ListUsers o.orgName token with
  | .error err =>
    some { rv := [], nextPageToken := "", annos := [],
           err := some (.wrap "failed to list org members" err),
           calls := [Call.ListUsers o.orgName token] }
  | .ok resp =>
    match collectSome (o.memberGrant resource) resp.Members with
    | none => none
    | some rv =>
      some { rv := rv, nextPageToken := resp.ContinuationToken, annos := [], err := none,
             calls := [Call.ListUsers o.orgName token] }

/-- The method `orgBuilder.Grant`. -/
def orgBuilder.Grant (o : orgBuilder) (principal : Option Resource)
    (entitlement : Option Entitlement) : GrantResult :=
  match principal.bind (fun p => p.Id) with
  | none =>
    { grants := [], annos := [], err := some (.errorf "principal is nil or has nil id"),
      calls := [] }
  | some principalId =>
    match entitlement with
    | none =>
      { grants := [], annos := [], err := some (.errorf "entitlement is nil"), calls := [] }
    | some entitlement =>
      if principalId.ResourceType ≠ userResourceType.Id then
        { grants := [], annos := [],
          err := some (.errorf ("cannot grant org role to non-user resource type: "
            ++ principalId.ResourceType)),
          calls := [] }
      else
        let adminEntID := formatResourceID [orgResourceType.Id, o.orgName, entitlementSlugAdmin]
        let memberEntID := formatResourceID [orgResourceType.Id, o.orgName, entitlementSlugMember]
        if entitlement.Id = adminEntID then
          { grants := [], annos := [],
            err := o.client.UpdateUserRole o.orgName principalId.Resource roleAdmin,
            calls := [Call.UpdateUserRole o.orgName principalId.Resource roleAdmin] }
        else if entitlement.Id = memberEntID then
          { grants := [], annos := [],
            err := o.client.UpdateUserRole o.orgName principalId.Resource roleMember,
            calls := [Call.UpdateUserRole o.orgName principalId.Resource roleMember] }
        else
          { grants := [], annos := [],
            err := some (.errorf ("unknown entitlement ID: " ++ entitlement.Id)),
            calls := [] }

/-- The method `orgBuilder.Revoke`. -/
def orgBuilder.Revoke (o : orgBuilder) (grant : Option Pulumi.Grant) : RevokeResult :=
  match grant with
  | none => { annos := [], err := some (.errorf "grant is nil"), calls := [] }
  | some grant =>
    match grant.Principal.bind (fun p => p.Id) with
    | none =>
      { annos := [], err := some (.errorf "grant principal is nil or has nil id"), calls := [] }
    | some principalId =>
      match grant.Entitlement with
      | none => { annos := [], err := some (.errorf "grant entitlement is nil"), calls := [] }
      | some _ =>
        if principalId.ResourceType ≠ userResourceType.Id then
          { annos := [],
            err := some (.errorf ("cannot revoke org role from non-user resource type: "
              ++ principalId.ResourceType)),
            calls := [] }
        else
          let username := principalId.Resource
          let adminGrantID :=
            formatResourceID ["org", o.orgName, "grant", username, entitlementSlugAdmin]
          let memberGrantID :=
            formatResourceID ["org", o.orgName, "grant", username, entitlementSlugMember]
          if grant.Id = adminGrantID then
            { annos := [], err := o.client.UpdateUserRole o.orgName username roleMember,
              calls := [Call.UpdateUserRole o.orgName username roleMember] }
          else if grant.Id = memberGrantID then
            { annos := [], err := o.client.RemoveUser o.orgName username,
              calls := [Call.RemoveUser o.orgName username] }
          else
            { annos := [], err := some (.errorf ("unknown grant ID: " ++ grant.Id)),
              calls := [] }

/-- The function `newOrgBuilder`. -/
def newOrgBuilder (client : Client) (orgName : String) : orgBuilder :=
  { resourceType := orgResourceType, client := client, orgName := orgName }

/-! ## `pkg/connector/team.go` -/

/-- The struct `teamBuilder`. -/
structure teamBuilder where
  resourceType : ResourceType
  client : Client
  orgName : String

/-- The function `teamResource`. -/
def teamResource (team : Team) (parentResourceId : Option ResourceId) : Except Error Resource :=
  let profile : Profile :=
    [("name", team.Name), ("display_name", team.DisplayName), ("description", team.Description)]
  NewGroupResource team.DisplayName teamResourceType team.Name
    [WithGroupProfile profile]
    [WithParentResourceID parentResourceId]

/-- The method `teamBuilder.List`. -/
def teamBuilder.List (o : teamBuilder) (parentResourceID : Option ResourceId)
    (pToken : Option Token) : ListResult Resource :=
  let parentResourceID : Option ResourceId :=
    match parentResourceID with
    | none => some { ResourceType := orgResourceType.Id, Resource := o.orgName }
    | some id => some id
  match o.client.ListTeams o.orgName with
  | .error err =>
    { rv := [], nextPageToken := "", annos := [],
      err := some (.wrap "failed to list teams" err), calls := [Call.ListTeams o.orgName] }
  | .ok resp =>
    match collect (fun team => teamResource team parentResourceID) resp with
    | .error err =>
      { rv := [], nextPageToken := "", annos := [], err := some err,
        calls := [Call.ListTeams o.orgName] }
    | .ok teams =>
      { rv := teams, nextPageToken := "", annos := [], err := none,
        calls := [Call.ListTeams o.orgName] }

/-- The method `teamBuilder.Entitlements`. -/
def teamBuilder.Entitlements (o : teamBuilder) (resource : Option Resource)
    (pToken : Option Token) : Option (ListResult Entitlement) :=
  match NewAssignmentEntitlement resource "member"
      [WithGrantableTo [userResourceType],
       WithDescription "Member of the team",
       WithDisplayName "Member"] with
  | none => none
  | some memberEnt =>
    some { rv := [memberEnt], nextPageToken := "", annos := [], err := none, calls := [] }

/-- The method `teamBuilder.Grants`; `resource.Id.Resource` panics on a nil resource or
a nil id. -/
def teamBuilder.Grants (o : teamBuilder) (resource : Option Resource) (pToken : Option Token) :
    Option (ListResult Grant) :=
  match resource.bind (fun r => r.Id) with
  | none => none
  | some resourceId =>
    match o.client.GetTeam o.orgName resourceId.Resource with
    | .error err =>
      some { rv := [], nextPageToken := "", annos := [],
             err := some (.wrap "failed to get team" err),
             calls := [Call.GetTeam o.orgName resourceId.Resource] }
    | .ok team =>
      match collectSome (fun (member : UserInfo) =>
          NewGrant resource "member"
            { ResourceType := userResourceType.Id, Resource := member.GithubLogin })
          team.Members with
      | none => none
      | some rv =>
        some { rv := rv, nextPageToken := "", annos := [], err := none,
               calls := [Call.GetTeam o.orgName resourceId.Resource] }

/-- The method `teamBuilder.Grant`. -/
def teamBuilder.Grant (o : teamBuilder) (principal : Option Resource)
    (entitlement : Option Entitlement) : GrantResult :=
  match principal.bind (fun p => p.Id) with
  | none =>
    { grants := [], annos := [], err := some (.errorf "principal is nil or has nil id"),
      calls := [] }
  | some principalId =>
    match (entitlement.bind (fun e => e.Resource)).bind (fun r => r.Id) with
    | none =>
      { grants := [], annos := [],
        err := some (.errorf "entitlement is nil or has nil resource"), calls := [] }
    | some entitlementResourceId =>
      if principalId.ResourceType ≠ userResourceType.Id then
        { grants := [], annos := [],
          err := some (.errorf ("cannot grant team membership to non-user resource type: "
            ++ principalId.ResourceType)),
          calls := [] }
      else
        match o.client.UpdateTeamMembership o.orgName entitlementResourceId.Resource
            principalId.Resource "add" with
        | some err =>
          { grants := [], annos := [], err := some (.wrap "failed to add team member" err),
            calls := [Call.UpdateTeamMembership o.orgName entitlementResourceId.Resource
              principalId.Resource "add"] }
        | none =>
          { grants := [], annos := [], err := none,
            calls := [Call.UpdateTeamMembership o.orgName entitlementResourceId.Resource
              principalId.Resource "add"] }

/-- The method `teamBuilder.Revoke`. -/
def teamBuilder.Revoke (o : teamBuilder) (grant : Option Pulumi.Grant) : RevokeResult :=
  match (grant.bind (fun g => g.Principal)).bind (fun p => p.Id) with
  | none =>
    { annos := [], err := some (.errorf "grant is nil or has nil principal"), calls := [] }
  | some principalId =>
    match ((grant.bind (fun g => g.Entitlement)).bind (fun e => e.Resource)).bind
        (fun r => r.Id) with
    | none =>
      { annos := [], err := some (.errorf "grant has nil entitlement or resource"),
        calls := [] }
    | some entitlementResourceId =>
      match o.client.UpdateTeamMembership o.orgName entitlementResourceId.Resource
          principalId.Resource "remove" with
      | some err =>
        { annos := [], err := some (.wrap "failed to remove team member" err),
          calls := [Call.UpdateTeamMembership o.orgName entitlementResourceId.Resource
            principalId.Resource "remove"] }
      | none =>
        { annos := [], err := none,
          calls := [Call.UpdateTeamMembership o.orgName entitlementResourceId.Resource
            principalId.Resource "remove"] }

/-- The function `newTeamBuilder`. -/
def newTeamBuilder (client : Client) (orgName : String) : teamBuilder :=
  { resourceType := teamResourceType, client := client, orgName := orgName }

/-! ## `pkg/connector/user.go` -/

/-- The struct `userBuilder`. -/
structure userBuilder where
  client : Client
  orgName : String

/-- The function `userResource`. -/
def userResource (user : Option User) (parentResourceId : Option ResourceId) :
    Except Error Resource :=
  match user with
  | none => .error (.errorf "user is nil")
  | some user =>
    let profile : Profile :=
      [("github_login", user.User.GithubLogin), ("name", user.User.Name), ("role", user.Role)]
    let userStatus := Status.STATUS_ENABLED
    let accountType := AccountType.ACCOUNT_TYPE_HUMAN
    let userTraits : List UserTraitOption :=
      [WithUserLogin user.User.GithubLogin,
       WithUserProfile profile,
       WithStatus userStatus,
       WithAccountType accountType]
    let name := if user.User.Name = "" then user.User.GithubLogin else user.User.Name
    NewUserResource name userResourceType user.User.GithubLogin userTraits
      [WithParentResourceID parentResourceId]

/-- The method `userBuilder.List`. -/
def userBuilder.List (ub : userBuilder) (parentResourceID : Option ResourceId)
    (pToken : Option Token) : ListResult Resource :=
  let token : String :=
    match pToken with
    | some t => t.Token
    | none => ""
  let orgParentID : ResourceId :=
    { ResourceType := orgResourceType.Id, Resource := ub.orgName }
  match ub.client.ListUsers ub.orgName token with
  | .error err =>
    { rv := [], nextPageToken := "", annos := [],
      err := some (.wrap "failed to list users" err),
      calls := [Call.ListUsers ub.orgName token] }
  | .ok resp =>
    match collect (fun member => userResource (some member) (some orgParentID)) resp.Members with
    | .error err =>
      { rv := [], nextPageToken := "", annos := [], err := some err,
        calls := [Call.ListUsers ub.orgName token] }
    | .ok resources =>
      { rv := resources, nextPageToken := resp.ContinuationToken, annos := [], err := none,
        calls := [Call.ListUsers ub.orgName token] }

/-- The method `userBuilder.Entitlements`. -/
def userBuilder.Entitlements (ub : userBuilder) (resource : Option Resource)
    (pToken : Option Token) : ListResult Entitlement :=
  { rv := [], nextPageToken := "", annos := [], err := none, calls := [] }

/-- The method `userBuilder.Grants`. -/
def userBuilder.Grants (ub : userBuilder) (resource : Option Resource)
    (pToken : Option Token) : ListResult Grant :=
  { rv := [], nextPageToken := "", annos := [], err := none, calls := [] }

/-- The function `newUserBuilder`. -/
def newUserBuilder (client : Client) (orgName : String) : userBuilder :=
  { client := client, orgName := orgName }

/-! ## A provider used in the examples

The organization `ACME` with the members alice (role `admin`) and bob (role `member`)
and the team `devs`; every request succeeds. -/

def alice : User :=
  { Role := "admin", User := { Name := "Alice", GithubLogin := "alice", AvatarUrl := "" },
    Created := "", KnownToPulumi := true, VirtualAdmin := false }

def bob : User :=
  { Role := "member", User := { Name := "Bob", GithubLogin := "bob", AvatarUrl := "" },
    Created := "", KnownToPulumi := true, VirtualAdmin := false }

def devs : Team :=
  { Kind := "pulumi", Name := "devs", DisplayName := "Developers", Description := "All developers",
    Members := [bob.User], UserRole := "" }

def acmeHttp : Http :=
  { Parse := fun s => .ok { Scheme := "", Host := "", Path := s, RawQuery := "" },
    ResolveReference := fun base ref => { ref with Scheme := base.Scheme, Host := base.Host },
    Encode := fun v => "&".intercalate (v.entries.map (fun kv => kv.1 ++ "=" ++ ",".intercalate kv.2)),
    NewRequest := fun method url options => .ok { Method := method, URL := url, Options := options },
    DoListUsers := fun _ => .ok { Members := [alice, bob], ContinuationToken := "" },
    DoListTeams := fun _ => .ok { Teams := [devs] },
    DoTeam := fun _ => .ok devs,
    Do := fun _ => none }

def acmeClient : Client :=
  { baseHttpClient := acmeHttp,
    baseURL := { Scheme := "https", Host := "api.pulumi.com", Path := "", RawQuery := "" },
    token := "secret" }

def acmeOrgBuilder : orgBuilder := newOrgBuilder acmeClient "ACME"

def acmeTeamBuilder : teamBuilder := newTeamBuilder acmeClient "ACME"

def acmeUserBuilder : userBuilder := newUserBuilder acmeClient "ACME"

/-- The organization resource of `ACME`, as `orgBuilder.List` returns it. -/
def acmeOrg : Resource :=
  { Id := some { ResourceType := "organization", Resource := "ACME" },
    ParentResourceId := none, DisplayName := "ACME", Annotations := [] }

/-- A user principal as the framework hands it in: a resource with the id of `login`. -/
def userPrincipal (login : String) : Resource :=
  { Id := some { ResourceType := "user", Resource := login },
    ParentResourceId := none, DisplayName := login, Annotations := [] }

/-- A grant on the organization `ACME` with the id `id`, held by the user `login`. -/
def acmeGrant (id login : String) : Grant :=
  { Entitlement := some
      { Resource := some acmeOrg, Id := "organization:ACME:member", DisplayName := "",
        Description := "", GrantableTo := [],
        Purpose := PurposeValue.PURPOSE_VALUE_UNSPECIFIED, Slug := "" },
    Principal := some (userPrincipal login),
    Id := id }

/-- An entitlement of the organization `ACME` with the id `id`. -/
def acmeEntitlement (id : String) : Entitlement :=
  { Resource := some acmeOrg, Id := id, DisplayName := "", Description := "",
    GrantableTo := [userResourceType], Purpose := PurposeValue.PURPOSE_VALUE_UNSPECIFIED,
    Slug := "" }

/-- The team `devs` as a principal. -/
def devsPrincipal : Resource :=
  { Id := some { ResourceType := "team", Resource := "devs" },
    ParentResourceId := some { ResourceType := "organization", Resource := "ACME" },
    DisplayName := "Developers", Annotations := [] }

/-- The team `devs` as the resource of an entitlement or a grant. -/
def devsEntitlement : Entitlement :=
  { Resource := some devsPrincipal, Id := "team:devs:member", DisplayName := "Member",
    Description := "Member of the team", GrantableTo := [userResourceType],
    Purpose := PurposeValue.PURPOSE_VALUE_ASSIGNMENT, Slug := "member" }

/-- The grant of membership in the team `devs` to the user `login`. -/
def devsGrant (login : String) : Grant :=
  { Entitlement := some devsEntitlement,
    Principal := some (userPrincipal login),
    Id := "team:devs:member:user:" ++ login }

/-- A provider that is down: every request is built and sent, and fails. -/
def downHttp : Http :=
  { Parse := acmeHttp.Parse,
    ResolveReference := acmeHttp.ResolveReference,
    Encode := acmeHttp.Encode,
    NewRequest := acmeHttp.NewRequest,
    DoListUsers := fun _ => .error (.external "503 Service Unavailable"),
    DoListTeams := fun _ => .error (.external "503 Service Unavailable"),
    DoTeam := fun _ => .error (.external "503 Service Unavailable"),
    Do := fun _ => some (.external "503 Service Unavailable") }

def downClient : Client :=
  { baseHttpClient := downHttp,
    baseURL := { Scheme := "https", Host := "api.pulumi.com", Path := "", RawQuery := "" },
    token := "secret" }

def downOrgBuilder : orgBuilder := newOrgBuilder downClient "ACME"

def downTeamBuilder : teamBuilder := newTeamBuilder downClient "ACME"

def downUserBuilder : userBuilder := newUserBuilder downClient "ACME"

/-! ## Lemmas on strings and loops -/

theorem str_append_left_cancel (a b c : String) : a ++ b = a ++ c ↔ b = c := by
  constructor
  · intro h
    have hd := congrArg String.data h
    simp only [String.data_append] at hd
    exact String.ext (List.append_cancel_left hd)
  · intro h
    rw [h]

theorem str_append_right_cancel (a b c : String) : a ++ c = b ++ c ↔ a = b := by
  constructor
  · intro h
    have hd := congrArg String.data h
    simp only [String.data_append] at hd
    exact String.ext (List.append_cancel_right hd)
  · intro h
    rw [h]

theorem formatResourceID_grant (orgName login slug : String) :
    formatResourceID ["org", orgName, "grant", login, slug]
      = "org:" ++ orgName ++ ":grant:" ++ login ++ ":" ++ slug := by
  simp only [formatResourceID, String.intercalate, String.intercalate.go, String.append_assoc]
  rfl

theorem collectSome_eq_map {α β : Type} (f : α → Option β) (g : α → β)
    (h : ∀ a, f a = some (g a)) (l : List α) : collectSome f l = some (l.map g) := by
  induction l with
  | nil => rfl
  | cons a as ih => simp [collectSome, h, ih]

theorem collect_eq_map {α β : Type} (f : α → Except Error β) (g : α → β)
    (h : ∀ a, f a = .ok (g a)) (l : List α) : collect f l = .ok (l.map g) := by
  induction l with
  | nil => rfl
  | cons a as ih => simp [collect, h, ih]

/-- The grant `orgBuilder.Grants` makes for a member of a resource that has an id. -/
theorem memberGrant_eq (o : orgBuilder) (resource : Resource) (rid : ResourceId) (member : User)
    (hres : resource.Id = some rid) :
    o.memberGrant (some resource) member = some
      { Entitlement := some
          { Resource := some resource,
            Id := rid.ResourceType ++ ":" ++ rid.Resource ++ ":" ++ entSlug member,
            DisplayName := "", Description := "", GrantableTo := [],
            Purpose := PurposeValue.PURPOSE_VALUE_UNSPECIFIED, Slug := "" },
        Principal := some
          { Id := some { ResourceType := "user", Resource := member.User.GithubLogin },
            ParentResourceId := none, DisplayName := member.User.Name, Annotations := [] },
        Id := formatResourceID
          ["org", o.orgName, "grant", member.User.GithubLogin, entSlug member] } := by
  simp [orgBuilder.memberGrant, NewGrant, NewEntitlementID, hres, userResourceType]

/-- The token a nil or non-nil `pToken` stands for. -/
theorem token_match (pToken : Option Token) :
    (match pToken with
      | some t => t.Token
      | none => "") = (pToken.map Token.Token).getD "" := by
  cases pToken <;> rfl


theorem adminGrantID_eq (orgName login : String) :
    formatResourceID ["org", orgName, "grant", login, entitlementSlugAdmin]
      = "org:" ++ orgName ++ ":grant:" ++ login ++ ":admin" := by
  simp only [formatResourceID, String.intercalate, String.intercalate.go, String.append_assoc]
  rfl

theorem memberGrantID_eq (orgName login : String) :
    formatResourceID ["org", orgName, "grant", login, entitlementSlugMember]
      = "org:" ++ orgName ++ ":grant:" ++ login ++ ":member" := by
  simp only [formatResourceID, String.intercalate, String.intercalate.go, String.append_assoc]
  rfl

/-- The admin and the member grant id of one org and login are different strings. -/
theorem adminGrantID_ne_memberGrantID (orgName login : String) :
    "org:" ++ orgName ++ ":grant:" ++ login ++ ":admin"
      ≠ "org:" ++ orgName ++ ":grant:" ++ login ++ ":member" := by
  rw [Ne, str_append_left_cancel]
  decide

/-- Strings that end in `admin` and in `member` differ. -/
theorem append_admin_ne_append_member (x y : String) : x ++ "admin" ≠ y ++ "member" := by
  intro h
  have hd := congrArg (fun s => s.data.reverse.head?) h
  simp only [String.data_append, List.reverse_append] at hd
  have h1 : "admin".data.reverse = 'n' :: 'i' :: 'm' :: 'd' :: 'a' :: [] := by decide
  have h2 : "member".data.reverse = 'r' :: 'e' :: 'b' :: 'm' :: 'e' :: 'm' :: [] := by decide
  rw [h1, h2] at hd
  simp at hd

theorem buildURL_ne_errorf (c : Client) (path : String) (q : Option Values) (msg : String) :
    c.buildURL path q ≠ .error (.errorf msg) := by
  unfold Client.buildURL
  split
  · simp
  · split <;> simp

theorem UpdateUserRole_ne_errorf (c : Client) (orgName username role msg : String) :
    c.UpdateUserRole orgName username role ≠ some (.errorf msg) := by
  unfold Client.UpdateUserRole
  split
  · rename_i err h
    intro hc
    simp at hc
    rw [hc] at h
    exact buildURL_ne_errorf c _ none msg h
  · simp only
    split
    · simp
    · split <;> simp

theorem RemoveUser_ne_errorf (c : Client) (orgName username msg : String) :
    c.RemoveUser orgName username ≠ some (.errorf msg) := by
  unfold Client.RemoveUser
  split
  · rename_i err h
    intro hc
    simp at hc
    rw [hc] at h
    exact buildURL_ne_errorf c _ none msg h
  · split
    · simp
    · split <;> simp

/-- `Revoke` on a well-formed grant of a user principal is the dispatch on the grant id. -/
theorem orgRevoke_user (o : orgBuilder) (grant : Grant) (principal : Resource)
    (ent : Entitlement) (U : String)
    (hp : grant.Principal = some principal)
    (hid : principal.Id = some { ResourceType := "user", Resource := U })
    (he : grant.Entitlement = some ent) :
    o.Revoke (some grant) =
      if grant.Id = "org:" ++ o.orgName ++ ":grant:" ++ U ++ ":admin" then
        { annos := [], err := o.client.UpdateUserRole o.orgName U "member",
          calls := [Call.UpdateUserRole o.orgName U "member"] }
      else if grant.Id = "org:" ++ o.orgName ++ ":grant:" ++ U ++ ":member" then
        { annos := [], err := o.client.RemoveUser o.orgName U,
          calls := [Call.RemoveUser o.orgName U] }
      else
        { annos := [], err := some (.errorf ("unknown grant ID: " ++ grant.Id)), calls := [] } := by
  simp only [orgBuilder.Revoke, hp, hid, he, Option.bind, userResourceType, adminGrantID_eq,
    memberGrantID_eq, roleMember, ne_eq, not_true_eq_false, ite_false]

/-- The page `orgBuilder.Grants` returns for a resource that has an id, when the provider
returns a page of members. -/
theorem orgGrants_ok (o : orgBuilder) (resource : Resource) (rid : ResourceId)
    (pToken : Option Token) (resp : ListUsersResponse)
    (hres : resource.Id = some rid)
    (hpage : o.client.ListUsers o.orgName ((pToken.map Token.Token).getD "") = .ok resp) :
    o.Grants (some resource) pToken = some
      { rv := resp.Members.map (fun member =>
          { Entitlement := some
              { Resource := some resource,
                Id := rid.ResourceType ++ ":" ++ rid.Resource ++ ":" ++ entSlug member,
                DisplayName := "", Description := "", GrantableTo := [],
                Purpose := PurposeValue.PURPOSE_VALUE_UNSPECIFIED, Slug := "" },
            Principal := some
              { Id := some { ResourceType := "user", Resource := member.User.GithubLogin },
                ParentResourceId := none, DisplayName := member.User.Name, Annotations := [] },
            Id := formatResourceID
              ["org", o.orgName, "grant", member.User.GithubLogin, entSlug member] }),
        nextPageToken := resp.ContinuationToken, annos := [], err := none,
        calls := [Call.ListUsers o.orgName ((pToken.map Token.Token).getD "")] } := by
  unfold orgBuilder.Grants
  simp only [token_match, hpage]
  rw [collectSome_eq_map _ _ (fun m => memberGrant_eq o resource rid m hres)]

/-! ## Organization grants -/

/-- C1: for a page of members returned by the provider, `orgBuilder.Grants` (on a resource
that has an id) returns one grant per member, in the page's order: the principal of the
grant is the user resource id of the member's login, and its entitlement is the `admin`
entitlement of the resource when the member's role is exactly `admin` and the `member`
entitlement for every other role; it is never the other one of the two. -/
theorem C1_orgGrants_one_grant_per_member (o : orgBuilder) (resource : Resource)
    (rid : ResourceId) (pToken : Option Token) (resp : ListUsersResponse)
    (hres : resource.Id = some rid)
    (hpage : o.client.ListUsers o.orgName ((pToken.map Token.Token).getD "") = .ok resp) :
    ∃ res, o.Grants (some resource) pToken = some res ∧ res.err = none ∧
      res.rv.length = resp.Members.length ∧
      List.Forall₂ (fun (member : User) (g : Grant) =>
          g.Principal.bind (fun p => p.Id)
            = some { ResourceType := "user", Resource := member.User.GithubLogin } ∧
          (member.Role = "admin" →
            g.Entitlement.map (fun e => e.Id)
                = some (rid.ResourceType ++ ":" ++ rid.Resource ++ ":" ++ "admin") ∧
            g.Entitlement.map (fun e => e.Id)
                ≠ some (rid.ResourceType ++ ":" ++ rid.Resource ++ ":" ++ "member")) ∧
          (member.Role ≠ "admin" →
            g.Entitlement.map (fun e => e.Id)
                = some (rid.ResourceType ++ ":" ++ rid.Resource ++ ":" ++ "member") ∧
            g.Entitlement.map (fun e => e.Id)
                ≠ some (rid.ResourceType ++ ":" ++ rid.Resource ++ ":" ++ "admin")))
        resp.Members res.rv := by
  refine ⟨_, orgGrants_ok o resource rid pToken resp hres hpage, rfl, by simp, ?_⟩
  simp only [List.forall₂_map_right_iff, List.forall₂_same]
  intro member _
  refine ⟨rfl, ?_, ?_⟩
  · intro h
    simp [entSlug, roleAdmin, entitlementSlugAdmin, h, str_append_left_cancel]
  · intro h
    simp [entSlug, roleAdmin, entitlementSlugMember, h, str_append_left_cancel]

/-- C1 at the organization `ACME` with the members alice (admin) and bob (member). -/
theorem C1_orgGrants_one_grant_per_member_witness :
    acmeOrg.Id = some { ResourceType := "organization", Resource := "ACME" } ∧
    acmeOrgBuilder.client.ListUsers acmeOrgBuilder.orgName ""
      = .ok { Members := [alice, bob], ContinuationToken := "" } ∧
    ∃ res, acmeOrgBuilder.Grants (some acmeOrg) none = some res ∧ res.err = none ∧
      res.rv.length = 2 ∧
      List.Forall₂ (fun (member : User) (g : Grant) =>
          g.Principal.bind (fun p => p.Id)
            = some { ResourceType := "user", Resource := member.User.GithubLogin } ∧
          (member.Role = "admin" →
            g.Entitlement.map (fun e => e.Id) = some ("organization" ++ ":" ++ "ACME" ++ ":" ++ "admin") ∧
            g.Entitlement.map (fun e => e.Id) ≠ some ("organization" ++ ":" ++ "ACME" ++ ":" ++ "member")) ∧
          (member.Role ≠ "admin" →
            g.Entitlement.map (fun e => e.Id) = some ("organization" ++ ":" ++ "ACME" ++ ":" ++ "member") ∧
            g.Entitlement.map (fun e => e.Id) ≠ some ("organization" ++ ":" ++ "ACME" ++ ":" ++ "admin")))
        [alice, bob] res.rv :=
  ⟨rfl, rfl,
    C1_orgGrants_one_grant_per_member acmeOrgBuilder acmeOrg
      { ResourceType := "organization", Resource := "ACME" } none
      { Members := [alice, bob], ContinuationToken := "" } rfl rfl⟩

/-- C2: the id of the grant `orgBuilder.Grants` emits for a member with login `L` and
computed slug `S` in the org `O` is the string `org:O:grant:L:S`, which is
`formatResourceID` joining the five parts with `:`. -/
theorem C2_orgGrants_grant_id (o : orgBuilder) (resource : Resource)
    (rid : ResourceId) (pToken : Option Token) (resp : ListUsersResponse)
    (hres : resource.Id = some rid)
    (hpage : o.client.ListUsers o.orgName ((pToken.map Token.Token).getD "") = .ok resp) :
    (∃ res, o.Grants (some resource) pToken = some res ∧
      res.rv.map (fun g => g.Id) = resp.Members.map (fun member =>
        "org:" ++ o.orgName ++ ":grant:" ++ member.User.GithubLogin ++ ":"
          ++ (if member.Role = "admin" then "admin" else "member"))) ∧
    ∀ O L S : String,
      formatResourceID ["org", O, "grant", L, S] = "org:" ++ O ++ ":grant:" ++ L ++ ":" ++ S := by
  refine ⟨⟨_, orgGrants_ok o resource rid pToken resp hres hpage, ?_⟩, formatResourceID_grant⟩
  simp only [List.map_map]
  apply List.map_congr_left
  intro member _
  simp only [Function.comp, formatResourceID_grant, entSlug, roleAdmin, entitlementSlugAdmin,
    entitlementSlugMember]

/-- C2 at the organization `ACME`: the two grants have the ids `org:ACME:grant:alice:admin`
and `org:ACME:grant:bob:member`, in that order. -/
theorem C2_orgGrants_grant_id_witness :
    ∃ res, acmeOrgBuilder.Grants (some acmeOrg) none = some res ∧
      res.rv.map (fun g => g.Id) = ["org:ACME:grant:alice:admin", "org:ACME:grant:bob:member"] :=
  (C2_orgGrants_grant_id acmeOrgBuilder acmeOrg
      { ResourceType := "organization", Resource := "ACME" } none
      { Members := [alice, bob], ContinuationToken := "" } rfl rfl).1

/-! ## Organization revoke -/

/-- C3: on a well-formed grant whose principal is the user `U`, `orgBuilder.Revoke` for the
org `O` makes exactly the one call `UpdateUserRole(O, U, "member")` when the grant id is
`org:O:grant:U:admin`, and exactly the one call `RemoveUser(O, U)` when the grant id is
`org:O:grant:U:member`; its error is that call's. -/
theorem C3_orgRevoke_dispatch (o : orgBuilder) (grant : Grant) (principal : Resource)
    (ent : Entitlement) (U : String)
    (hp : grant.Principal = some principal)
    (hid : principal.Id = some { ResourceType := "user", Resource := U })
    (he : grant.Entitlement = some ent) :
    (grant.Id = "org:" ++ o.orgName ++ ":grant:" ++ U ++ ":admin" →
      (o.Revoke (some grant)).calls = [Call.UpdateUserRole o.orgName U "member"] ∧
      (o.Revoke (some grant)).err = o.client.UpdateUserRole o.orgName U "member") ∧
    (grant.Id = "org:" ++ o.orgName ++ ":grant:" ++ U ++ ":member" →
      (o.Revoke (some grant)).calls = [Call.RemoveUser o.orgName U] ∧
      (o.Revoke (some grant)).err = o.client.RemoveUser o.orgName U) := by
  rw [orgRevoke_user o grant principal ent U hp hid he]
  constructor
  · intro h
    simp [h]
  · intro h
    have hne := adminGrantID_ne_memberGrantID o.orgName U
    simp [h, hne.symm]

/-- C3 at the organization `ACME`: revoking `org:ACME:grant:alice:admin` updates the role of
alice to member, revoking `org:ACME:grant:bob:member` removes bob. -/
theorem C3_orgRevoke_dispatch_witness :
    ((acmeOrgBuilder.Revoke (some (acmeGrant "org:ACME:grant:alice:admin" "alice"))).calls
        = [Call.UpdateUserRole "ACME" "alice" "member"] ∧
      (acmeOrgBuilder.Revoke (some (acmeGrant "org:ACME:grant:alice:admin" "alice"))).err
        = acmeClient.UpdateUserRole "ACME" "alice" "member") ∧
    ((acmeOrgBuilder.Revoke (some (acmeGrant "org:ACME:grant:bob:member" "bob"))).calls
        = [Call.RemoveUser "ACME" "bob"] ∧
      (acmeOrgBuilder.Revoke (some (acmeGrant "org:ACME:grant:bob:member" "bob"))).err
        = acmeClient.RemoveUser "ACME" "bob") :=
  ⟨(C3_orgRevoke_dispatch acmeOrgBuilder (acmeGrant "org:ACME:grant:alice:admin" "alice")
      (userPrincipal "alice") _ "alice" rfl rfl rfl).1 (by decide),
   (C3_orgRevoke_dispatch acmeOrgBuilder (acmeGrant "org:ACME:grant:bob:member" "bob")
      (userPrincipal "bob") _ "bob" rfl rfl rfl).2 (by decide)⟩


/-- Two grant ids with slugs among `admin` and `member` that are equal as strings have the
same slug and the same text before it. -/
theorem grantID_eq_split (O O' U U' S T : String)
    (hS : S = "admin" ∨ S = "member") (hT : T = "admin" ∨ T = "member")
    (h : "org:" ++ O' ++ ":grant:" ++ U' ++ ":" ++ S = "org:" ++ O ++ ":grant:" ++ U ++ ":" ++ T) :
    S = T ∧ O' ++ ":grant:" ++ U' = O ++ ":grant:" ++ U := by
  have hst : S = T := by
    rcases hS with rfl | rfl <;> rcases hT with rfl | rfl
    · rfl
    · exact absurd h (append_admin_ne_append_member _ _)
    · exact absurd h.symm (append_admin_ne_append_member _ _)
    · rfl
  subst hst
  refine ⟨rfl, ?_⟩
  rw [str_append_right_cancel, str_append_right_cancel] at h
  simp only [String.append_assoc] at h
  rw [str_append_left_cancel] at h
  simpa only [String.append_assoc] using h

theorem grantID_ne_of_org_ne (O O' U S T : String)
    (hS : S = "admin" ∨ S = "member") (hT : T = "admin" ∨ T = "member") (hne : O' ≠ O) :
    "org:" ++ O' ++ ":grant:" ++ U ++ ":" ++ S ≠ "org:" ++ O ++ ":grant:" ++ U ++ ":" ++ T := by
  intro h
  have h2 := (grantID_eq_split O O' U U S T hS hT h).2
  rw [str_append_right_cancel, str_append_right_cancel] at h2
  exact hne h2

theorem grantID_ne_of_login_ne (O U U' S T : String)
    (hS : S = "admin" ∨ S = "member") (hT : T = "admin" ∨ T = "member") (hne : U' ≠ U) :
    "org:" ++ O ++ ":grant:" ++ U' ++ ":" ++ S ≠ "org:" ++ O ++ ":grant:" ++ U ++ ":" ++ T := by
  intro h
  have h2 := (grantID_eq_split O O U U' S T hS hT h).2
  rw [str_append_left_cancel] at h2
  exact hne h2

theorem suffix_admin (x : String) : x ++ ":admin" = x ++ ":" ++ "admin" := by
  rw [String.append_assoc]; rfl

theorem suffix_member (x : String) : x ++ ":member" = x ++ ":" ++ "member" := by
  rw [String.append_assoc]; rfl

/-- C4, as stated, fails: the builder of the org `ACME` is handed a grant of the user
`y:grant:z` whose id has the right shape and names the org `ACME:grant:y` and the login `z`,
both different from the builder's org and the grant's principal. The id is the same string
as the admin grant id of `ACME` and `y:grant:z`, so it is not rejected as unknown: the role
of `y:grant:z` is updated. -/
theorem C4_orgRevoke_unknown_id_counterexample :
    "ACME:grant:y" ≠ acmeOrgBuilder.orgName ∧ "z" ≠ "y:grant:z" ∧
    ¬ ((acmeOrgBuilder.Revoke (some (acmeGrant
          (formatResourceID ["org", "ACME:grant:y", "grant", "z", "admin"]) "y:grant:z"))).err
        = some (.errorf ("unknown grant ID: "
            ++ formatResourceID ["org", "ACME:grant:y", "grant", "z", "admin"]))) ∧
    (acmeOrgBuilder.Revoke (some (acmeGrant
          (formatResourceID ["org", "ACME:grant:y", "grant", "z", "admin"]) "y:grant:z"))).calls
      = [Call.UpdateUserRole "ACME" "y:grant:z" "member"] := by
  decide

/-- C4, amended: on a well-formed grant whose principal is the user `U`, `orgBuilder.Revoke`
for the org `O` fails with `unknown grant ID: <grant.Id>` and makes no client call if and
only if the grant id is neither `org:O:grant:U:admin` nor `org:O:grant:U:member`. In
particular an id of the right shape in which only the org differs from `O`, or only the
login differs from `U`, is rejected as unknown; and the two accepted ids are distinct. -/
theorem C4_orgRevoke_unknown_id (o : orgBuilder) (grant : Grant) (principal : Resource)
    (ent : Entitlement) (U : String)
    (hp : grant.Principal = some principal)
    (hid : principal.Id = some { ResourceType := "user", Resource := U })
    (he : grant.Entitlement = some ent) :
    (((o.Revoke (some grant)).err = some (.errorf ("unknown grant ID: " ++ grant.Id)) ∧
        (o.Revoke (some grant)).calls = []) ↔
      (grant.Id ≠ "org:" ++ o.orgName ++ ":grant:" ++ U ++ ":admin" ∧
        grant.Id ≠ "org:" ++ o.orgName ++ ":grant:" ++ U ++ ":member")) ∧
    (∀ O' U' S : String, (S = "admin" ∨ S = "member") →
      grant.Id = formatResourceID ["org", O', "grant", U', S] →
      ((O' ≠ o.orgName ∧ U' = U) ∨ (O' = o.orgName ∧ U' ≠ U)) →
      (o.Revoke (some grant)).err = some (.errorf ("unknown grant ID: " ++ grant.Id)) ∧
        (o.Revoke (some grant)).calls = []) ∧
    "org:" ++ o.orgName ++ ":grant:" ++ U ++ ":admin"
      ≠ "org:" ++ o.orgName ++ ":grant:" ++ U ++ ":member" := by
  have key : ((o.Revoke (some grant)).err = some (.errorf ("unknown grant ID: " ++ grant.Id)) ∧
        (o.Revoke (some grant)).calls = []) ↔
      (grant.Id ≠ "org:" ++ o.orgName ++ ":grant:" ++ U ++ ":admin" ∧
        grant.Id ≠ "org:" ++ o.orgName ++ ":grant:" ++ U ++ ":member") := by
    rw [orgRevoke_user o grant principal ent U hp hid he]
    by_cases h1 : grant.Id = "org:" ++ o.orgName ++ ":grant:" ++ U ++ ":admin"
    · simp [h1]
    · by_cases h2 : grant.Id = "org:" ++ o.orgName ++ ":grant:" ++ U ++ ":member"
      · rw [if_neg h1, if_pos h2]
        simp [h2]
      · simp [h1, h2]
  refine ⟨key, ?_, adminGrantID_ne_memberGrantID o.orgName U⟩
  intro O' U' S hS hId hdiff
  rw [key, hId, formatResourceID_grant, suffix_admin, suffix_member]
  rcases hdiff with ⟨ho, rfl⟩ | ⟨rfl, hu⟩
  · exact ⟨grantID_ne_of_org_ne _ _ _ _ _ hS (Or.inl rfl) ho,
      grantID_ne_of_org_ne _ _ _ _ _ hS (Or.inr rfl) ho⟩
  · exact ⟨grantID_ne_of_login_ne _ _ _ _ _ hS (Or.inl rfl) hu,
      grantID_ne_of_login_ne _ _ _ _ _ hS (Or.inr rfl) hu⟩

/-- C4 (amended) at the organization `ACME`: a grant of alice whose id names the org
`OTHER` is rejected as unknown, without a client call. -/
theorem C4_orgRevoke_unknown_id_witness :
    (acmeOrgBuilder.Revoke (some (acmeGrant "org:OTHER:grant:alice:admin" "alice"))).err
        = some (.errorf "unknown grant ID: org:OTHER:grant:alice:admin") ∧
      (acmeOrgBuilder.Revoke (some (acmeGrant "org:OTHER:grant:alice:admin" "alice"))).calls
        = [] :=
  (C4_orgRevoke_unknown_id acmeOrgBuilder (acmeGrant "org:OTHER:grant:alice:admin" "alice")
      (userPrincipal "alice") _ "alice" rfl rfl rfl).2.1 "OTHER" "alice" "admin"
    (Or.inl rfl) (by decide) (Or.inl ⟨by decide, rfl⟩)

/-! ## Round trip of organization grants -/

/-- C5: every grant `orgBuilder.Grants` emits for a page of members (whatever the logins)
is accepted by `orgBuilder.Revoke` of the same builder: the result is no validation error,
in particular not `unknown grant ID`; the one client call is `UpdateUserRole(org, login,
"member")` when the member's role was `admin` and `RemoveUser(org, login)` otherwise. -/
theorem C5_orgGrants_then_Revoke (o : orgBuilder) (resource : Resource)
    (rid : ResourceId) (pToken : Option Token) (resp : ListUsersResponse)
    (hres : resource.Id = some rid)
    (hpage : o.client.ListUsers o.orgName ((pToken.map Token.Token).getD "") = .ok resp) :
    ∃ res, o.Grants (some resource) pToken = some res ∧
      List.Forall₂ (fun (member : User) (g : Grant) =>
          (∀ msg : String, (o.Revoke (some g)).err ≠ some (.errorf msg)) ∧
          (member.Role = "admin" →
            (o.Revoke (some g)).calls
                = [Call.UpdateUserRole o.orgName member.User.GithubLogin "member"] ∧
            (o.Revoke (some g)).err
                = o.client.UpdateUserRole o.orgName member.User.GithubLogin "member") ∧
          (member.Role ≠ "admin" →
            (o.Revoke (some g)).calls = [Call.RemoveUser o.orgName member.User.GithubLogin] ∧
            (o.Revoke (some g)).err = o.client.RemoveUser o.orgName member.User.GithubLogin))
        resp.Members res.rv := by
  refine ⟨_, orgGrants_ok o resource rid pToken resp hres hpage, ?_⟩
  simp only [List.forall₂_map_right_iff, List.forall₂_same]
  intro member _
  by_cases hrole : member.Role = "admin"
  · have hslug : entSlug member = entitlementSlugAdmin := by simp [entSlug, roleAdmin, hrole]
    rw [orgRevoke_user o _ _ _ member.User.GithubLogin rfl rfl rfl]
    simp only [hslug, adminGrantID_eq, if_true]
    exact ⟨fun msg => UpdateUserRole_ne_errorf _ _ _ _ _, fun _ => ⟨trivial, trivial⟩,
      fun h => absurd hrole h⟩
  · have hslug : entSlug member = entitlementSlugMember := by simp [entSlug, roleAdmin, hrole]
    rw [orgRevoke_user o _ _ _ member.User.GithubLogin rfl rfl rfl]
    simp only [hslug, memberGrantID_eq,
      if_neg (adminGrantID_ne_memberGrantID o.orgName member.User.GithubLogin).symm, if_true]
    exact ⟨fun msg => RemoveUser_ne_errorf _ _ _ _, fun h => absurd h hrole,
      fun _ => ⟨trivial, trivial⟩⟩

/-- C5 at the organization `ACME` with the members alice (admin) and bob (member). -/
theorem C5_orgGrants_then_Revoke_witness :
    ∃ res, acmeOrgBuilder.Grants (some acmeOrg) none = some res ∧
      List.Forall₂ (fun (member : User) (g : Grant) =>
          (∀ msg : String, (acmeOrgBuilder.Revoke (some g)).err ≠ some (.errorf msg)) ∧
          (member.Role = "admin" →
            (acmeOrgBuilder.Revoke (some g)).calls
                = [Call.UpdateUserRole "ACME" member.User.GithubLogin "member"] ∧
            (acmeOrgBuilder.Revoke (some g)).err
                = acmeClient.UpdateUserRole "ACME" member.User.GithubLogin "member") ∧
          (member.Role ≠ "admin" →
            (acmeOrgBuilder.Revoke (some g)).calls
                = [Call.RemoveUser "ACME" member.User.GithubLogin] ∧
            (acmeOrgBuilder.Revoke (some g)).err
                = acmeClient.RemoveUser "ACME" member.User.GithubLogin))
        [alice, bob] res.rv :=
  C5_orgGrants_then_Revoke acmeOrgBuilder acmeOrg
    { ResourceType := "organization", Resource := "ACME" } none
    { Members := [alice, bob], ContinuationToken := "" } rfl rfl

/-! ## Organization and team grant: validation -/

/-- C6: for a principal whose resource type is not `user` and any entitlement (nil, or with
or without a resource reference), `orgBuilder.Grant` and `teamBuilder.Grant` both return an
error and make no client call. -/
theorem C6_Grant_non_user_principal (o : orgBuilder) (t : teamBuilder) (principal : Resource) (pid : ResourceId)
    (entitlement : Option Entitlement)
    (hid : principal.Id = some pid) (htype : pid.ResourceType ≠ "user") :
    ((o.Grant (some principal) entitlement).err ≠ none ∧
      (o.Grant (some principal) entitlement).calls = []) ∧
    ((t.Grant (some principal) entitlement).err ≠ none ∧
      (t.Grant (some principal) entitlement).calls = []) := by
  constructor
  · simp only [orgBuilder.Grant, Option.bind, hid, userResourceType]
    cases entitlement with
    | none => simp
    | some e => simp [htype]
  · simp only [teamBuilder.Grant, Option.bind, hid, userResourceType]
    split
    · simp
    · simp [htype]

/-- C6 at the organization `ACME`, with the team `devs` as the principal. -/
theorem C6_Grant_non_user_principal_witness :
    ((acmeOrgBuilder.Grant (some devsPrincipal)
          (some (acmeEntitlement "organization:ACME:member"))).err ≠ none ∧
      (acmeOrgBuilder.Grant (some devsPrincipal)
          (some (acmeEntitlement "organization:ACME:member"))).calls = []) ∧
    ((acmeTeamBuilder.Grant (some devsPrincipal)
          (some (acmeEntitlement "organization:ACME:member"))).err ≠ none ∧
      (acmeTeamBuilder.Grant (some devsPrincipal)
          (some (acmeEntitlement "organization:ACME:member"))).calls = []) :=
  C6_Grant_non_user_principal acmeOrgBuilder acmeTeamBuilder devsPrincipal
    { ResourceType := "team", Resource := "devs" }
    (some (acmeEntitlement "organization:ACME:member")) rfl (by decide)

theorem entID_admin (O : String) :
    formatResourceID [orgResourceType.Id, O, entitlementSlugAdmin] = "organization:" ++ O ++ ":admin" := by
  simp only [formatResourceID, String.intercalate, String.intercalate.go, String.append_assoc]
  rfl

theorem entID_member (O : String) :
    formatResourceID [orgResourceType.Id, O, entitlementSlugMember] = "organization:" ++ O ++ ":member" := by
  simp only [formatResourceID, String.intercalate, String.intercalate.go, String.append_assoc]
  rfl

theorem entID_admin_ne_member (O : String) :
    "organization:" ++ O ++ ":admin" ≠ "organization:" ++ O ++ ":member" := by
  rw [Ne, str_append_left_cancel]
  decide

/-- `Grant` on a user principal and a non-nil entitlement is the dispatch on its id. -/
theorem orgGrant_user (o : orgBuilder) (principal : Resource) (U : String) (ent : Entitlement)
    (hid : principal.Id = some { ResourceType := "user", Resource := U }) :
    o.Grant (some principal) (some ent) =
      if ent.Id = "organization:" ++ o.orgName ++ ":admin" then
        { grants := [], annos := [], err := o.client.UpdateUserRole o.orgName U "admin",
          calls := [Call.UpdateUserRole o.orgName U "admin"] }
      else if ent.Id = "organization:" ++ o.orgName ++ ":member" then
        { grants := [], annos := [], err := o.client.UpdateUserRole o.orgName U "member",
          calls := [Call.UpdateUserRole o.orgName U "member"] }
      else
        { grants := [], annos := [],
          err := some (.errorf ("unknown entitlement ID: " ++ ent.Id)), calls := [] } := by
  simp only [orgBuilder.Grant, hid, Option.bind, userResourceType, entID_admin, entID_member,
    roleMember, roleAdmin, ne_eq, not_true_eq_false, ite_false]

/-- C7: for a user principal with login `U` and an entitlement whose id is neither
`organization:O:admin` nor `organization:O:member`, `orgBuilder.Grant` for the org `O`
returns the error `unknown entitlement ID: <entitlement.Id>` and makes no client call; when
the id is one of the two, it does not return that error and makes exactly one
`UpdateUserRole` call. -/
theorem C7_orgGrant_unknown_entitlement (o : orgBuilder) (principal : Resource) (U : String) (ent : Entitlement)
    (hid : principal.Id = some { ResourceType := "user", Resource := U }) :
    ((ent.Id ≠ "organization:" ++ o.orgName ++ ":admin" ∧
        ent.Id ≠ "organization:" ++ o.orgName ++ ":member") →
      (o.Grant (some principal) (some ent)).err
          = some (.errorf ("unknown entitlement ID: " ++ ent.Id)) ∧
        (o.Grant (some principal) (some ent)).calls = []) ∧
    ((ent.Id = "organization:" ++ o.orgName ++ ":admin" ∨
        ent.Id = "organization:" ++ o.orgName ++ ":member") →
      (o.Grant (some principal) (some ent)).err
          ≠ some (.errorf ("unknown entitlement ID: " ++ ent.Id)) ∧
        ∃ role, (o.Grant (some principal) (some ent)).calls
          = [Call.UpdateUserRole o.orgName U role]) := by
  rw [orgGrant_user o principal U ent hid]
  constructor
  · rintro ⟨h1, h2⟩
    simp [h1, h2]
  · rintro (h | h)
    · rw [if_pos h]
      exact ⟨UpdateUserRole_ne_errorf _ _ _ _ _, "admin", rfl⟩
    · rw [if_neg (by rw [h]; exact (entID_admin_ne_member o.orgName).symm), if_pos h]
      exact ⟨UpdateUserRole_ne_errorf _ _ _ _ _, "member", rfl⟩

/-- C7 at the organization `ACME` and the user alice: the id `organization:OTHER:admin` is
unknown, the id `organization:ACME:admin` is not. -/
theorem C7_orgGrant_unknown_entitlement_witness :
    ((acmeOrgBuilder.Grant (some (userPrincipal "alice"))
          (some (acmeEntitlement "organization:OTHER:admin"))).err
        = some (.errorf "unknown entitlement ID: organization:OTHER:admin") ∧
      (acmeOrgBuilder.Grant (some (userPrincipal "alice"))
          (some (acmeEntitlement "organization:OTHER:admin"))).calls = []) ∧
    ((acmeOrgBuilder.Grant (some (userPrincipal "alice"))
          (some (acmeEntitlement "organization:ACME:admin"))).err
        ≠ some (.errorf "unknown entitlement ID: organization:ACME:admin") ∧
      ∃ role, (acmeOrgBuilder.Grant (some (userPrincipal "alice"))
          (some (acmeEntitlement "organization:ACME:admin"))).calls
        = [Call.UpdateUserRole "ACME" "alice" role]) :=
  ⟨(C7_orgGrant_unknown_entitlement acmeOrgBuilder (userPrincipal "alice") "alice"
      (acmeEntitlement "organization:OTHER:admin") rfl).1 (by decide),
   (C7_orgGrant_unknown_entitlement acmeOrgBuilder (userPrincipal "alice") "alice"
      (acmeEntitlement "organization:ACME:admin") rfl).2 (Or.inl (by decide))⟩

/-! ## Round trip of organization entitlements -/

/-- C8: `orgBuilder.List` returns the one organization resource of the org `O`, and
`orgBuilder.Entitlements` for it returns the entitlements `member` (assignment) and `admin`
(permission), both grantable to the user type, with the ids `organization:O:member` and
`organization:O:admin`. For every user principal with login `U`, `orgBuilder.Grant` with the
admin entitlement makes the one call `UpdateUserRole(O, U, "admin")`, and with the member
entitlement the one call `UpdateUserRole(O, U, "member")`; its error is that call's, never a
validation error such as `unknown entitlement ID`. -/
theorem C8_orgEntitlements_then_Grant (o : orgBuilder) (parentResourceID : Option ResourceId) (t₁ t₂ : Option Token) :
    ∃ resource memberEnt adminEnt,
      (o.List parentResourceID t₁).rv = [resource] ∧
      (o.List parentResourceID t₁).err = none ∧
      resource.Id = some { ResourceType := "organization", Resource := o.orgName } ∧
      o.Entitlements (some resource) t₂ = some
        { rv := [memberEnt, adminEnt], nextPageToken := "", annos := [], err := none,
          calls := [] } ∧
      memberEnt.Slug = "member" ∧
      memberEnt.Purpose = PurposeValue.PURPOSE_VALUE_ASSIGNMENT ∧
      memberEnt.GrantableTo = [userResourceType] ∧
      memberEnt.Id = "organization:" ++ o.orgName ++ ":member" ∧
      adminEnt.Slug = "admin" ∧
      adminEnt.Purpose = PurposeValue.PURPOSE_VALUE_PERMISSION ∧
      adminEnt.GrantableTo = [userResourceType] ∧
      adminEnt.Id = "organization:" ++ o.orgName ++ ":admin" ∧
      ∀ (U displayName : String) (parent : Option ResourceId) (annos : Annotations),
        (o.Grant (some { Id := some { ResourceType := "user", Resource := U },
                         ParentResourceId := parent, DisplayName := displayName,
                         Annotations := annos }) (some adminEnt))
          = { grants := [], annos := [], err := o.client.UpdateUserRole o.orgName U "admin",
              calls := [Call.UpdateUserRole o.orgName U "admin"] } ∧
        (o.Grant (some { Id := some { ResourceType := "user", Resource := U },
                         ParentResourceId := parent, DisplayName := displayName,
                         Annotations := annos }) (some memberEnt))
          = { grants := [], annos := [], err := o.client.UpdateUserRole o.orgName U "member",
              calls := [Call.UpdateUserRole o.orgName U "member"] } ∧
        (∀ msg : String, o.client.UpdateUserRole o.orgName U "admin" ≠ some (.errorf msg)) ∧
        (∀ msg : String, o.client.UpdateUserRole o.orgName U "member" ≠ some (.errorf msg)) := by
  refine ⟨{ Id := some { ResourceType := "organization", Resource := o.orgName },
            ParentResourceId := none, DisplayName := o.orgName, Annotations := [] },
    { Resource := some
        { Id := some { ResourceType := "organization", Resource := o.orgName },
          ParentResourceId := none, DisplayName := o.orgName, Annotations := [] },
      Id := "organization:" ++ o.orgName ++ ":member", DisplayName := "Member",
      Description := "Member of the Pulumi organization", GrantableTo := [userResourceType],
      Purpose := PurposeValue.PURPOSE_VALUE_ASSIGNMENT, Slug := "member" },
    { Resource := some
        { Id := some { ResourceType := "organization", Resource := o.orgName },
          ParentResourceId := none, DisplayName := o.orgName, Annotations := [] },
      Id := "organization:" ++ o.orgName ++ ":admin", DisplayName := "Administrator",
      Description := "Administrator of the Pulumi organization",
      GrantableTo := [userResourceType],
      Purpose := PurposeValue.PURPOSE_VALUE_PERMISSION, Slug := "admin" },
    rfl, rfl, rfl, ?_, rfl, rfl, rfl, rfl, rfl, rfl, rfl, rfl, ?_⟩
  · have hm (x : String) : "organization" ++ ":" ++ x = "organization:" ++ x := by
      rw [String.append_assoc]; rfl
    simp [orgBuilder.Entitlements, NewAssignmentEntitlement, NewPermissionEntitlement,
      newEntitlement, NewEntitlementID, WithGrantableTo, WithDescription, WithDisplayName,
      entitlementSlugMember, entitlementSlugAdmin, hm]
    exact ⟨(suffix_member _).symm, (suffix_admin _).symm⟩
  · intro U displayName parent annos
    refine ⟨?_, ?_, fun msg => UpdateUserRole_ne_errorf _ _ _ _ _,
      fun msg => UpdateUserRole_ne_errorf _ _ _ _ _⟩
    · rw [orgGrant_user o _ U _ rfl]
      simp
    · rw [orgGrant_user o _ U _ rfl]
      simp [(entID_admin_ne_member o.orgName).symm]

/-- The function `userResource` never fails on a member. -/
theorem userResource_ok (member : User) (parent : Option ResourceId) :
    userResource (some member) parent = .ok
      { Id := some { ResourceType := "user", Resource := member.User.GithubLogin },
        ParentResourceId := parent,
        DisplayName :=
          if member.User.Name = "" then member.User.GithubLogin else member.User.Name,
        Annotations := [TraitValue.user
          { Login := member.User.GithubLogin,
            Profile := [("github_login", member.User.GithubLogin),
              ("name", member.User.Name), ("role", member.Role)],
            Status := some Status.STATUS_ENABLED,
            AccountType := AccountType.ACCOUNT_TYPE_HUMAN }] } := by
  by_cases hl : member.User.GithubLogin = ""
  · simp [userResource, NewUserResource, NewResource, NewResourceID, applyOptions,
      WithParentResourceID, WithUserTrait, NewUserTrait, WithUserLogin, WithUserProfile,
      WithStatus, WithAccountType, userResourceType, hl]
  · simp [userResource, NewUserResource, NewResource, NewResourceID, applyOptions,
      WithParentResourceID, WithUserTrait, NewUserTrait, WithUserLogin, WithUserProfile,
      WithStatus, WithAccountType, userResourceType, hl]

/-- The function `teamResource` never fails. -/
theorem teamResource_ok (team : Team) (parent : Option ResourceId) :
    teamResource team parent = .ok
      { Id := some { ResourceType := "team", Resource := team.Name },
        ParentResourceId := parent,
        DisplayName := team.DisplayName,
        Annotations := [TraitValue.group
          { Profile := [("name", team.Name), ("display_name", team.DisplayName),
              ("description", team.Description)] }] } := by
  simp [teamResource, NewGroupResource, NewResource, NewResourceID, applyOptions,
    WithParentResourceID, WithGroupTrait, WithGroupProfile, teamResourceType]

/-- The query `Client.ListUsers` builds, entry by entry. -/
theorem ListUsersQuery_eq (T : String) :
    ListUsersQuery T =
      if T ≠ "" then ⟨[("continuationToken", [T]), ("type", ["backend"])]⟩
      else ⟨[("type", ["backend"])]⟩ := by
  unfold ListUsersQuery
  by_cases h : T = ""
  · simp [h, Values.Set]
  · simp [h, Values.Set]

/-- `orgBuilder.Grants` on a resource that has an id returns, with the one call it made. -/
theorem orgGrants_calls (o : orgBuilder) (resource : Resource) (rid : ResourceId)
    (pToken : Option Token) (hres : resource.Id = some rid) :
    ∃ res, o.Grants (some resource) pToken = some res ∧
      res.calls = [Call.ListUsers o.orgName ((pToken.map Token.Token).getD "")] ∧
      ∀ resp, o.client.ListUsers o.orgName ((pToken.map Token.Token).getD "") = .ok resp →
        res.err = none ∧ res.nextPageToken = resp.ContinuationToken := by
  cases hl : o.client.ListUsers o.orgName ((pToken.map Token.Token).getD "") with
  | error err =>
    refine ⟨{ rv := [], nextPageToken := "", annos := [],
              err := some (.wrap "failed to list org members" err),
              calls := [Call.ListUsers o.orgName ((pToken.map Token.Token).getD "")] },
      ?_, rfl, ?_⟩
    · unfold orgBuilder.Grants
      simp only [token_match, hl]
    · intro resp h
      cases h
  | ok resp =>
    refine ⟨_, orgGrants_ok o resource rid pToken resp hres hl, rfl, ?_⟩
    intro resp2 h
    cases h
    exact ⟨rfl, rfl⟩

/-- The results of `userBuilder.List` when the provider returns a page of members. -/
theorem userList_ok (ub : userBuilder) (parent : Option ResourceId) (pToken : Option Token)
    (resp : ListUsersResponse)
    (hpage : ub.client.ListUsers ub.orgName ((pToken.map Token.Token).getD "") = .ok resp) :
    ub.List parent pToken =
      { rv := resp.Members.map (fun member =>
          { Id := some { ResourceType := "user", Resource := member.User.GithubLogin },
            ParentResourceId := some { ResourceType := "organization", Resource := ub.orgName },
            DisplayName :=
              if member.User.Name = "" then member.User.GithubLogin else member.User.Name,
            Annotations := [TraitValue.user
              { Login := member.User.GithubLogin,
                Profile := [("github_login", member.User.GithubLogin),
                  ("name", member.User.Name), ("role", member.Role)],
                Status := some Status.STATUS_ENABLED,
                AccountType := AccountType.ACCOUNT_TYPE_HUMAN }] }),
        nextPageToken := resp.ContinuationToken, annos := [], err := none,
        calls := [Call.ListUsers ub.orgName ((pToken.map Token.Token).getD "")] } := by
  unfold userBuilder.List
  simp only [token_match, hpage]
  rw [collect_eq_map _ _ (fun m => userResource_ok m _)]
  rfl

theorem userList_calls (ub : userBuilder) (parent : Option ResourceId)
    (pToken : Option Token) :
    (ub.List parent pToken).calls
      = [Call.ListUsers ub.orgName ((pToken.map Token.Token).getD "")] := by
  cases hl : ub.client.ListUsers ub.orgName ((pToken.map Token.Token).getD "") with
  | error err =>
    unfold userBuilder.List
    simp only [token_match, hl]
  | ok resp => rw [userList_ok ub parent pToken resp hl]

/-- A page `Client.ListUsers` returns is the response to a GET request whose URL carries
the encoded query of `ListUsersQuery`. -/
theorem ListUsers_ok_request (c : Client) (orgName T : String) (resp : ListUsersResponse)
    (h : c.ListUsers orgName T = .ok resp) :
    ∃ url req,
      c.buildURL ("orgs/" ++ orgName ++ "/members") (some (ListUsersQuery T)) = .ok url ∧
      url.RawQuery = c.baseHttpClient.Encode (ListUsersQuery T) ∧
      c.baseHttpClient.NewRequest "GET" url (c.requestOptions none) = .ok req ∧
      c.baseHttpClient.DoListUsers req = .ok resp := by
  unfold Client.ListUsers at h
  simp only at h
  split at h
  · cases h
  · rename_i url hurl
    split at h
    · cases h
    · rename_i req hreq
      split at h
      · cases h
      · rename_i response hdo
        cases h
        refine ⟨url, req, hurl, ?_, hreq, hdo⟩
        unfold Client.buildURL at hurl
        split at hurl
        · cases hurl
        · simp only at hurl
          cases hurl
          rfl

/-! ## Pagination -/

/-- C9: `orgBuilder.Grants` and `userBuilder.List`, called with the pagination token `T` (a
nil token stands for the empty string), make the one call `ListUsers(org, T)`, and when
that call returns a page, both return no error and, as next-page token, the
`ContinuationToken` of the page. For every `T` the query `ListUsers` builds has
`type=backend`, and has `continuationToken` if and only if `T` is not empty, then with the
value `T`; a page `ListUsers` returns is the response to the request carrying that query. -/
theorem C9_continuation_token_threading (o : orgBuilder) (ub : userBuilder) (resource : Resource) (rid : ResourceId)
    (parent : Option ResourceId) (pToken : Option Token) (hres : resource.Id = some rid) :
    (∃ res, o.Grants (some resource) pToken = some res ∧
      res.calls = [Call.ListUsers o.orgName ((pToken.map Token.Token).getD "")] ∧
      ∀ resp, o.client.ListUsers o.orgName ((pToken.map Token.Token).getD "") = .ok resp →
        res.err = none ∧ res.nextPageToken = resp.ContinuationToken) ∧
    ((ub.List parent pToken).calls
        = [Call.ListUsers ub.orgName ((pToken.map Token.Token).getD "")] ∧
      ∀ resp, ub.client.ListUsers ub.orgName ((pToken.map Token.Token).getD "") = .ok resp →
        (ub.List parent pToken).err = none ∧
        (ub.List parent pToken).nextPageToken = resp.ContinuationToken) ∧
    (∀ T : String,
      (ListUsersQuery T).Has "type" = true ∧
      (ListUsersQuery T).Get "type" = "backend" ∧
      ((ListUsersQuery T).Has "continuationToken" = true ↔ T ≠ "") ∧
      (T ≠ "" → (ListUsersQuery T).Get "continuationToken" = T) ∧
      ∀ (c : Client) (orgName : String) (resp : ListUsersResponse),
        c.ListUsers orgName T = .ok resp →
        ∃ url req,
          c.buildURL ("orgs/" ++ orgName ++ "/members") (some (ListUsersQuery T)) = .ok url ∧
          url.RawQuery = c.baseHttpClient.Encode (ListUsersQuery T) ∧
          c.baseHttpClient.NewRequest "GET" url (c.requestOptions none) = .ok req ∧
          c.baseHttpClient.DoListUsers req = .ok resp) := by
  refine ⟨orgGrants_calls o resource rid pToken hres, ⟨userList_calls ub parent pToken, ?_⟩, ?_⟩
  · intro resp h
    rw [userList_ok ub parent pToken resp h]
    exact ⟨rfl, rfl⟩
  · intro T
    refine ⟨?_, ?_, ?_, ?_, fun c orgName resp h => ListUsers_ok_request c orgName T resp h⟩
    · rw [ListUsersQuery_eq]
      by_cases h : T = "" <;> simp [h, Values.Has]
    · rw [ListUsersQuery_eq]
      by_cases h : T = "" <;> simp [h, Values.Get]
    · rw [ListUsersQuery_eq]
      by_cases h : T = "" <;> simp [h, Values.Has]
    · intro h
      rw [ListUsersQuery_eq]
      simp [h, Values.Get]

/-- C9 at the organization `ACME`, with the pagination token `page2`. -/
theorem C9_continuation_token_threading_witness :
    (∃ res, acmeOrgBuilder.Grants (some acmeOrg) (some { Size := 0, Token := "page2" })
        = some res ∧
      res.calls = [Call.ListUsers "ACME" "page2"] ∧
      ∀ resp, acmeClient.ListUsers "ACME" "page2" = .ok resp →
        res.err = none ∧ res.nextPageToken = resp.ContinuationToken) ∧
    ((acmeUserBuilder.List none (some { Size := 0, Token := "page2" })).calls
        = [Call.ListUsers "ACME" "page2"] ∧
      ∀ resp, acmeClient.ListUsers "ACME" "page2" = .ok resp →
        (acmeUserBuilder.List none (some { Size := 0, Token := "page2" })).err = none ∧
        (acmeUserBuilder.List none (some { Size := 0, Token := "page2" })).nextPageToken
          = resp.ContinuationToken) :=
  ⟨(C9_continuation_token_threading acmeOrgBuilder acmeUserBuilder acmeOrg
      { ResourceType := "organization", Resource := "ACME" } none
      (some { Size := 0, Token := "page2" }) rfl).1,
   (C9_continuation_token_threading acmeOrgBuilder acmeUserBuilder acmeOrg
      { ResourceType := "organization", Resource := "ACME" } none
      (some { Size := 0, Token := "page2" }) rfl).2.1⟩

/-! ## Team listing -/

/-- C10, as stated, fails: `teamBuilder.List` of the org `ACME`, called with the non-nil
`parentResourceID` (`user`, `alice`), returns the team `devs` with that id as its parent,
not the organization resource id. -/
theorem C10_teamList_counterexample :
    acmeTeamBuilder.client.ListTeams acmeTeamBuilder.orgName = .ok [devs] ∧
    (acmeTeamBuilder.List (some { ResourceType := "user", Resource := "alice" }) none).rv.map
        (fun r => r.ParentResourceId)
      = [some { ResourceType := "user", Resource := "alice" }] ∧
    ¬ (∀ r ∈ (acmeTeamBuilder.List (some { ResourceType := "user", Resource := "alice" }) none).rv,
        r.ParentResourceId = some { ResourceType := "organization", Resource := "ACME" }) := by
  refine ⟨rfl, by decide, by decide⟩

/-- C10, amended: for every `parentResourceID` and every team list the provider returns,
`teamBuilder.List` makes exactly one `ListTeams` call and returns, without error and with an
empty next-page token, one resource per team in order, with resource id (`team`, team name),
display name the team's display name, and the profile fields `name`, `display_name` and
`description` of the team. The parent is the organization resource id of the builder's org
when `parentResourceID` is nil, and the given `parentResourceID` when it is not. -/
theorem C10_teamList (o : teamBuilder) (parentResourceID : Option ResourceId) (pToken : Option Token)
    (teams : List Team) (hteams : o.client.ListTeams o.orgName = .ok teams) :
    o.List parentResourceID pToken =
      { rv := teams.map (fun team =>
          { Id := some { ResourceType := "team", Resource := team.Name },
            ParentResourceId := some
              (match parentResourceID with
                | none => { ResourceType := "organization", Resource := o.orgName }
                | some id => id),
            DisplayName := team.DisplayName,
            Annotations := [TraitValue.group
              { Profile := [("name", team.Name), ("display_name", team.DisplayName),
                  ("description", team.Description)] }] }),
        nextPageToken := "", annos := [], err := none,
        calls := [Call.ListTeams o.orgName] } := by
  unfold teamBuilder.List
  simp only [hteams]
  rw [collect_eq_map _ _ (fun t => teamResource_ok t _)]
  cases parentResourceID <;> rfl

/-- C10 (amended) at the organization `ACME`, with a nil `parentResourceID`. -/
theorem C10_teamList_witness :
    acmeTeamBuilder.List none none =
      { rv := [{ Id := some { ResourceType := "team", Resource := "devs" },
                 ParentResourceId := some { ResourceType := "organization", Resource := "ACME" },
                 DisplayName := "Developers",
                 Annotations := [TraitValue.group
                   { Profile := [("name", "devs"), ("display_name", "Developers"),
                       ("description", "All developers")] }] }],
        nextPageToken := "", annos := [], err := none,
        calls := [Call.ListTeams "ACME"] } :=
  C10_teamList acmeTeamBuilder none none [devs] rfl

/-! ## User listing -/

/-- C11: for every `parentResourceID` and every page of members the provider returns,
`userBuilder.List` returns without error one user resource per member, in order: its
resource id is (`user`, the member's login), its parent is the organization resource id of
the builder's org whatever the argument, and its user trait has status enabled, account
type human and the profile fields `github_login`, `name` and `role` of the member. -/
theorem C11_userList (ub : userBuilder) (parentResourceID : Option ResourceId)
    (pToken : Option Token) (resp : ListUsersResponse)
    (hpage : ub.client.ListUsers ub.orgName ((pToken.map Token.Token).getD "") = .ok resp) :
    (ub.List parentResourceID pToken).err = none ∧
    (ub.List parentResourceID pToken).rv.length = resp.Members.length ∧
    List.Forall₂ (fun (member : User) (r : Resource) =>
        r.Id = some { ResourceType := "user", Resource := member.User.GithubLogin } ∧
        r.ParentResourceId = some { ResourceType := "organization", Resource := ub.orgName } ∧
        ∃ ut : UserTrait, r.Annotations = [TraitValue.user ut] ∧
          ut.Status = some Status.STATUS_ENABLED ∧
          ut.AccountType = AccountType.ACCOUNT_TYPE_HUMAN ∧
          ut.Profile = [("github_login", member.User.GithubLogin),
            ("name", member.User.Name), ("role", member.Role)])
      resp.Members (ub.List parentResourceID pToken).rv := by
  rw [userList_ok ub parentResourceID pToken resp hpage]
  refine ⟨rfl, by simp, ?_⟩
  simp only [List.forall₂_map_right_iff, List.forall₂_same]
  intro member _
  exact ⟨trivial, trivial, _, rfl, rfl, rfl, rfl⟩

/-- C11 at the organization `ACME`, called with the team `devs` as `parentResourceID`. -/
theorem C11_userList_witness :
    (acmeUserBuilder.List (some { ResourceType := "team", Resource := "devs" }) none).err = none ∧
    (acmeUserBuilder.List (some { ResourceType := "team", Resource := "devs" }) none).rv.length = 2 ∧
    List.Forall₂ (fun (member : User) (r : Resource) =>
        r.Id = some { ResourceType := "user", Resource := member.User.GithubLogin } ∧
        r.ParentResourceId = some { ResourceType := "organization", Resource := "ACME" } ∧
        ∃ ut : UserTrait, r.Annotations = [TraitValue.user ut] ∧
          ut.Status = some Status.STATUS_ENABLED ∧
          ut.AccountType = AccountType.ACCOUNT_TYPE_HUMAN ∧
          ut.Profile = [("github_login", member.User.GithubLogin),
            ("name", member.User.Name), ("role", member.Role)])
      [alice, bob]
      (acmeUserBuilder.List (some { ResourceType := "team", Resource := "devs" }) none).rv :=
  C11_userList acmeUserBuilder (some { ResourceType := "team", Resource := "devs" }) none
    { Members := [alice, bob], ContinuationToken := "" } rfl

/-! ## Errors and partial results -/

/-- A result of `orgBuilder.Grants` with an error has no grants and no next-page token. -/
theorem orgGrants_err (o : orgBuilder) (resource : Option Resource) (pToken : Option Token)
    (res : ListResult Grant) (h : o.Grants resource pToken = some res) (he : res.err ≠ none) :
    res.rv = [] ∧ res.nextPageToken = "" := by
  unfold orgBuilder.Grants at h
  simp only at h
  split at h
  · cases h
    exact ⟨rfl, rfl⟩
  · split at h
    · cases h
    · cases h
      exact absurd rfl he

/-- A result of `teamBuilder.Grants` with an error has no grants and no next-page token. -/
theorem teamGrants_err (t : teamBuilder) (resource : Option Resource) (pToken : Option Token)
    (res : ListResult Grant) (h : t.Grants resource pToken = some res) (he : res.err ≠ none) :
    res.rv = [] ∧ res.nextPageToken = "" := by
  unfold teamBuilder.Grants at h
  split at h
  · cases h
  · split at h
    · cases h
      exact ⟨rfl, rfl⟩
    · split at h
      · cases h
      · cases h
        exact absurd rfl he

theorem teamList_err (t : teamBuilder) (parentResourceID : Option ResourceId)
    (pToken : Option Token) (he : (t.List parentResourceID pToken).err ≠ none) :
    (t.List parentResourceID pToken).rv = [] ∧
      (t.List parentResourceID pToken).nextPageToken = "" := by
  unfold teamBuilder.List at he ⊢
  simp only at he ⊢
  split
  · exact ⟨rfl, rfl⟩
  · rename_i resp hresp
    simp only [hresp] at he
    split
    · exact ⟨rfl, rfl⟩
    · rename_i teams hteams
      simp only [hteams] at he
      exact absurd rfl he

theorem userList_err (ub : userBuilder) (parentResourceID : Option ResourceId)
    (pToken : Option Token) (he : (ub.List parentResourceID pToken).err ≠ none) :
    (ub.List parentResourceID pToken).rv = [] ∧
      (ub.List parentResourceID pToken).nextPageToken = "" := by
  unfold userBuilder.List at he ⊢
  simp only at he ⊢
  split
  · exact ⟨rfl, rfl⟩
  · rename_i resp hresp
    simp only [hresp] at he
    split
    · exact ⟨rfl, rfl⟩
    · rename_i teams hteams
      simp only [hteams] at he
      exact absurd rfl he

theorem orgList_err (o : orgBuilder) (parentResourceID : Option ResourceId)
    (pToken : Option Token) (he : (o.List parentResourceID pToken).err ≠ none) :
    (o.List parentResourceID pToken).rv = [] ∧
      (o.List parentResourceID pToken).nextPageToken = "" := by
  unfold orgBuilder.List at he ⊢
  split
  · exact ⟨rfl, rfl⟩
  · rename_i resource hres
    simp only [hres] at he
    exact absurd rfl he

theorem orgGrant_grants (o : orgBuilder) (principal : Option Resource)
    (entitlement : Option Entitlement) : (o.Grant principal entitlement).grants = [] := by
  unfold orgBuilder.Grant
  split
  · rfl
  · split
    · rfl
    · split
      · rfl
      · simp only
        split
        · rfl
        · split <;> rfl

theorem teamGrant_grants (t : teamBuilder) (principal : Option Resource)
    (entitlement : Option Entitlement) : (t.Grant principal entitlement).grants = [] := by
  unfold teamBuilder.Grant
  split
  · rfl
  · split
    · rfl
    · split
      · rfl
      · split <;> rfl

/-- The client call `orgBuilder.Grant` makes, if any, and the error it then returns. -/
theorem orgGrant_calls (o : orgBuilder) (principal : Option Resource)
    (entitlement : Option Entitlement) :
    (o.Grant principal entitlement).calls = [] ∨
    ∃ U role, (o.Grant principal entitlement).calls = [Call.UpdateUserRole o.orgName U role] ∧
      (o.Grant principal entitlement).err = o.client.UpdateUserRole o.orgName U role := by
  unfold orgBuilder.Grant
  split
  · exact Or.inl rfl
  · split
    · exact Or.inl rfl
    · split
      · exact Or.inl rfl
      · simp only
        split
        · exact Or.inr ⟨_, _, rfl, rfl⟩
        · split
          · exact Or.inr ⟨_, _, rfl, rfl⟩
          · exact Or.inl rfl

/-- The client call `teamBuilder.Grant` makes, if any, and the error it then returns. -/
theorem teamGrant_calls (t : teamBuilder) (principal : Option Resource)
    (entitlement : Option Entitlement) :
    (t.Grant principal entitlement).calls = [] ∨
    ∃ T U, (t.Grant principal entitlement).calls
        = [Call.UpdateTeamMembership t.orgName T U "add"] ∧
      (t.Grant principal entitlement).err
        = (t.client.UpdateTeamMembership t.orgName T U "add").map
            (fun err => Error.wrap "failed to add team member" err) := by
  unfold teamBuilder.Grant
  split
  · exact Or.inl rfl
  · split
    · exact Or.inl rfl
    · split
      · exact Or.inl rfl
      · rename_i pid _ _ rid _ _
        refine Or.inr ⟨rid.Resource, pid.Resource, ?_, ?_⟩
        · split <;> rfl
        · split
          · rename_i err herr
            rw [herr]
            rfl
          · rename_i herr
            rw [herr]
            rfl

/-- The SDK function `grant.NewGrant` on a resource that has an id. -/
theorem NewGrant_some (resource : Resource) (rid : ResourceId) (entitlementName : String)
    (principal : ResourceId) (hres : resource.Id = some rid) :
    NewGrant (some resource) entitlementName principal = some
      { Entitlement := some
          { Resource := some resource,
            Id := rid.ResourceType ++ ":" ++ rid.Resource ++ ":" ++ entitlementName,
            DisplayName := "", Description := "", GrantableTo := [],
            Purpose := PurposeValue.PURPOSE_VALUE_UNSPECIFIED, Slug := "" },
        Principal := some
          { Id := some principal, ParentResourceId := none, DisplayName := "",
            Annotations := [] },
        Id := rid.ResourceType ++ ":" ++ rid.Resource ++ ":" ++ entitlementName ++ ":"
          ++ principal.ResourceType ++ ":" ++ principal.Resource } := by
  simp [NewGrant, NewEntitlementID, hres]

/-- On a resource that has an id, `teamBuilder.Grants` returns. -/
theorem teamGrants_returns (t : teamBuilder) (resource : Resource) (rid : ResourceId)
    (pToken : Option Token) (hres : resource.Id = some rid) :
    ∃ res, t.Grants (some resource) pToken = some res ∧
      res.calls = [Call.GetTeam t.orgName rid.Resource] ∧
      (∀ err, t.client.GetTeam t.orgName rid.Resource = .error err → res.err ≠ none) := by
  unfold teamBuilder.Grants
  simp only [Option.bind, hres]
  cases hg : t.client.GetTeam t.orgName rid.Resource with
  | error err =>
    exact ⟨_, rfl, rfl, fun _ _ => by simp⟩
  | ok team =>
    simp only
    rw [collectSome_eq_map _ _ (fun (m : UserInfo) => NewGrant_some resource rid "member"
      { ResourceType := userResourceType.Id, Resource := m.GithubLogin } hres)]
    exact ⟨_, rfl, rfl, fun err h => by cases h⟩


/-- C12: whenever `orgBuilder.List`, `orgBuilder.Grants`, `teamBuilder.List`,
`teamBuilder.Grants` or `userBuilder.List` returns an error, the list it returns is nil and
the next-page token is empty; `orgBuilder.Grant` and `teamBuilder.Grant` always return a nil
grant list. A failed client call (`ListUsers`, `ListTeams`, `GetTeam`, `UpdateUserRole`,
`UpdateTeamMembership`) makes the operation that made it return an error. -/
theorem C12_no_partial_results (o : orgBuilder) (t : teamBuilder) (ub : userBuilder)
    (parentResourceID : Option ResourceId) (resource : Option Resource)
    (pToken : Option Token) (principal : Option Resource) (entitlement : Option Entitlement) :
    ((o.List parentResourceID pToken).err ≠ none →
      (o.List parentResourceID pToken).rv = [] ∧
      (o.List parentResourceID pToken).nextPageToken = "") ∧
    (∀ res, o.Grants resource pToken = some res → res.err ≠ none →
      res.rv = [] ∧ res.nextPageToken = "") ∧
    ((t.List parentResourceID pToken).err ≠ none →
      (t.List parentResourceID pToken).rv = [] ∧
      (t.List parentResourceID pToken).nextPageToken = "") ∧
    (∀ res, t.Grants resource pToken = some res → res.err ≠ none →
      res.rv = [] ∧ res.nextPageToken = "") ∧
    ((ub.List parentResourceID pToken).err ≠ none →
      (ub.List parentResourceID pToken).rv = [] ∧
      (ub.List parentResourceID pToken).nextPageToken = "") ∧
    (o.Grant principal entitlement).grants = [] ∧
    (t.Grant principal entitlement).grants = [] ∧
    (∀ err, o.client.ListUsers o.orgName ((pToken.map Token.Token).getD "") = .error err →
      ∃ res, o.Grants resource pToken = some res ∧ res.err ≠ none) ∧
    (∀ err, t.client.ListTeams t.orgName = .error err →
      (t.List parentResourceID pToken).err ≠ none) ∧
    (∀ r rid err, resource = some r → r.Id = some rid →
      t.client.GetTeam t.orgName rid.Resource = .error err →
      ∃ res, t.Grants resource pToken = some res ∧ res.err ≠ none) ∧
    (∀ err, ub.client.ListUsers ub.orgName ((pToken.map Token.Token).getD "") = .error err →
      (ub.List parentResourceID pToken).err ≠ none) ∧
    (∀ orgName U role, Call.UpdateUserRole orgName U role ∈ (o.Grant principal entitlement).calls →
      o.client.UpdateUserRole orgName U role ≠ none →
      (o.Grant principal entitlement).err ≠ none) ∧
    (∀ orgName T U action,
      Call.UpdateTeamMembership orgName T U action ∈ (t.Grant principal entitlement).calls →
      t.client.UpdateTeamMembership orgName T U action ≠ none →
      (t.Grant principal entitlement).err ≠ none) := by
  refine ⟨orgList_err o _ _, fun res h he => orgGrants_err o _ _ res h he, teamList_err t _ _,
    fun res h he => teamGrants_err t _ _ res h he, userList_err ub _ _,
    orgGrant_grants o _ _, teamGrant_grants t _ _, ?_, ?_, ?_, ?_, ?_, ?_⟩
  · intro err h
    refine ⟨{ rv := [], nextPageToken := "", annos := [],
              err := some (.wrap "failed to list org members" err),
              calls := [Call.ListUsers o.orgName ((pToken.map Token.Token).getD "")] }, ?_, ?_⟩
    · unfold orgBuilder.Grants
      simp only [token_match, h]
    · simp
  · intro err h
    unfold teamBuilder.List
    simp [h]
  · intro r rid err hr hid h
    subst hr
    obtain ⟨res, h1, _, h3⟩ := teamGrants_returns t r rid pToken hid
    exact ⟨res, h1, h3 err h⟩
  · intro err h
    unfold userBuilder.List
    simp [token_match, h]
  · intro orgName U role hmem hfail
    rcases orgGrant_calls o principal entitlement with h | ⟨U2, role2, hc, he⟩
    · rw [h] at hmem
      cases hmem
    · rw [hc] at hmem
      simp at hmem
      obtain ⟨rfl, rfl, rfl⟩ := hmem
      rw [he]
      exact hfail
  · intro orgName T U action hmem hfail
    rcases teamGrant_calls t principal entitlement with h | ⟨T2, U2, hc, he⟩
    · rw [h] at hmem
      cases hmem
    · rw [hc] at hmem
      simp at hmem
      obtain ⟨rfl, rfl, rfl, rfl⟩ := hmem
      rw [he]
      cases hu : t.client.UpdateTeamMembership t.orgName T U "add" with
      | none => exact absurd hu hfail
      | some e => simp

/-- C12 at a provider that is down: the listings return an error with no resources and no
token, and `Grant` returns the error of its failed call. -/
theorem C12_no_partial_results_witness :
    ((downUserBuilder.List none none).rv = [] ∧
      (downUserBuilder.List none none).nextPageToken = "") ∧
    ((downTeamBuilder.List none none).rv = [] ∧
      (downTeamBuilder.List none none).nextPageToken = "") ∧
    (downTeamBuilder.List none none).err ≠ none ∧
    (∃ res, downOrgBuilder.Grants (some acmeOrg) none = some res ∧ res.err ≠ none) ∧
    (downOrgBuilder.Grant (some (userPrincipal "alice"))
        (some (acmeEntitlement "organization:ACME:admin"))).err ≠ none :=
  ⟨(C12_no_partial_results downOrgBuilder downTeamBuilder downUserBuilder none (some acmeOrg)
      none (some (userPrincipal "alice"))
      (some (acmeEntitlement "organization:ACME:admin"))).2.2.2.2.1 (by decide),
   (C12_no_partial_results downOrgBuilder downTeamBuilder downUserBuilder none (some acmeOrg)
      none (some (userPrincipal "alice"))
      (some (acmeEntitlement "organization:ACME:admin"))).2.2.1 (by decide),
   (C12_no_partial_results downOrgBuilder downTeamBuilder downUserBuilder none (some acmeOrg)
      none (some (userPrincipal "alice"))
      (some (acmeEntitlement "organization:ACME:admin"))).2.2.2.2.2.2.2.2.1 _ rfl,
   (C12_no_partial_results downOrgBuilder downTeamBuilder downUserBuilder none (some acmeOrg)
      none (some (userPrincipal "alice"))
      (some (acmeEntitlement "organization:ACME:admin"))).2.2.2.2.2.2.2.1 _ rfl,
   (C12_no_partial_results downOrgBuilder downTeamBuilder downUserBuilder none (some acmeOrg)
      none (some (userPrincipal "alice"))
      (some (acmeEntitlement "organization:ACME:admin"))).2.2.2.2.2.2.2.2.2.2.2.1
      "ACME" "alice" "admin" (by decide) (by decide)⟩

/-! ## Team provisioning -/

/-- `teamBuilder.Grant` once both references are there. -/
theorem teamGrant_refs (t : teamBuilder) (principal : Option Resource)
    (entitlement : Option Entitlement) (pid erid : ResourceId)
    (hp : principal.bind (fun p => p.Id) = some pid)
    (he : (entitlement.bind (fun e => e.Resource)).bind (fun r => r.Id) = some erid) :
    t.Grant principal entitlement =
      if pid.ResourceType ≠ "user" then
        { grants := [], annos := [],
          err := some (.errorf ("cannot grant team membership to non-user resource type: "
            ++ pid.ResourceType)),
          calls := [] }
      else
        { grants := [], annos := [],
          err := (t.client.UpdateTeamMembership t.orgName erid.Resource pid.Resource "add").map
            (fun err => Error.wrap "failed to add team member" err),
          calls := [Call.UpdateTeamMembership t.orgName erid.Resource pid.Resource "add"] } := by
  unfold teamBuilder.Grant
  simp only [hp, he, userResourceType]
  split
  · rfl
  · cases hu : t.client.UpdateTeamMembership t.orgName erid.Resource pid.Resource "add" <;> rfl

/-- `teamBuilder.Revoke` once both references are there. -/
theorem teamRevoke_refs (t : teamBuilder) (grant : Option Grant) (pid erid : ResourceId)
    (hp : (grant.bind (fun g => g.Principal)).bind (fun p => p.Id) = some pid)
    (he : ((grant.bind (fun g => g.Entitlement)).bind (fun e => e.Resource)).bind
      (fun r => r.Id) = some erid) :
    t.Revoke grant =
      { annos := [],
        err := (t.client.UpdateTeamMembership t.orgName erid.Resource pid.Resource "remove").map
          (fun err => Error.wrap "failed to remove team member" err),
        calls := [Call.UpdateTeamMembership t.orgName erid.Resource pid.Resource "remove"] } := by
  unfold teamBuilder.Revoke
  simp only [hp, he]
  cases hu : t.client.UpdateTeamMembership t.orgName erid.Resource pid.Resource "remove" <;> rfl

/-- A successful `Client.UpdateTeamMembership` is a PATCH request on the team's URL whose
body names the action and the member. -/
theorem UpdateTeamMembership_request (c : Client) (orgName teamName username action : String)
    (h : c.UpdateTeamMembership orgName teamName username action = none) :
    ∃ url req,
      c.buildURL ("orgs/" ++ orgName ++ "/teams/" ++ teamName) none = .ok url ∧
      c.baseHttpClient.NewRequest "PATCH" url
        (c.requestOptions (some [("memberAction", action), ("member", username)])) = .ok req ∧
      c.baseHttpClient.Do req = none := by
  unfold Client.UpdateTeamMembership at h
  split at h
  · cases h
  · rename_i url hurl
    simp only at h
    split at h
    · cases h
    · rename_i req hreq
      split at h
      · cases h
      · rename_i hdo
        exact ⟨url, req, hurl, hreq, hdo⟩

/-- C13: for a user principal with login `U` and an entitlement whose resource has the id
`T`, `teamBuilder.Grant` makes exactly the one call `UpdateTeamMembership(org, T, U, "add")`;
for a grant whose principal has the resource `U` and whose entitlement resource has the id
`T`, `teamBuilder.Revoke` makes exactly the one call
`UpdateTeamMembership(org, T, U, "remove")`. Each returns an error if and only if a required
reference is nil, or (for `Grant`) the principal is not a user, or that call fails; with a
nil reference no call is made. A successful `UpdateTeamMembership` is a PATCH request on the
team's URL with the body `memberAction`, `member`. -/
theorem C13_team_provisioning (t : teamBuilder) :
    (∀ (principal : Resource) (U : String) (entitlement : Entitlement) (er : Resource)
        (erid : ResourceId),
      principal.Id = some { ResourceType := "user", Resource := U } →
      entitlement.Resource = some er → er.Id = some erid →
      (t.Grant (some principal) (some entitlement)).calls
        = [Call.UpdateTeamMembership t.orgName erid.Resource U "add"] ∧
      ((t.Grant (some principal) (some entitlement)).err ≠ none ↔
        t.client.UpdateTeamMembership t.orgName erid.Resource U "add" ≠ none)) ∧
    (∀ (grant : Grant) (principal : Resource) (pid : ResourceId) (entitlement : Entitlement)
        (er : Resource) (erid : ResourceId),
      grant.Principal = some principal → principal.Id = some pid →
      grant.Entitlement = some entitlement → entitlement.Resource = some er →
      er.Id = some erid →
      (t.Revoke (some grant)).calls
        = [Call.UpdateTeamMembership t.orgName erid.Resource pid.Resource "remove"] ∧
      ((t.Revoke (some grant)).err ≠ none ↔
        t.client.UpdateTeamMembership t.orgName erid.Resource pid.Resource "remove" ≠ none)) ∧
    (∀ (principal : Option Resource) (entitlement : Option Entitlement),
      ((t.Grant principal entitlement).err ≠ none ↔
        (principal.bind (fun p => p.Id) = none ∨
         (entitlement.bind (fun e => e.Resource)).bind (fun r => r.Id) = none ∨
         (∃ pid, principal.bind (fun p => p.Id) = some pid ∧ pid.ResourceType ≠ "user") ∨
         (∃ pid erid, principal.bind (fun p => p.Id) = some pid ∧
            (entitlement.bind (fun e => e.Resource)).bind (fun r => r.Id) = some erid ∧
            t.client.UpdateTeamMembership t.orgName erid.Resource pid.Resource "add" ≠ none))) ∧
      ((principal.bind (fun p => p.Id) = none ∨
          (entitlement.bind (fun e => e.Resource)).bind (fun r => r.Id) = none) →
        (t.Grant principal entitlement).calls = [])) ∧
    (∀ (grant : Option Grant),
      ((t.Revoke grant).err ≠ none ↔
        ((grant.bind (fun g => g.Principal)).bind (fun p => p.Id) = none ∨
         ((grant.bind (fun g => g.Entitlement)).bind (fun e => e.Resource)).bind
            (fun r => r.Id) = none ∨
         (∃ pid erid, (grant.bind (fun g => g.Principal)).bind (fun p => p.Id) = some pid ∧
            ((grant.bind (fun g => g.Entitlement)).bind (fun e => e.Resource)).bind
              (fun r => r.Id) = some erid ∧
            t.client.UpdateTeamMembership t.orgName erid.Resource pid.Resource "remove"
              ≠ none))) ∧
      (((grant.bind (fun g => g.Principal)).bind (fun p => p.Id) = none ∨
          ((grant.bind (fun g => g.Entitlement)).bind (fun e => e.Resource)).bind
            (fun r => r.Id) = none) →
        (t.Revoke grant).calls = [])) ∧
    (∀ (c : Client) (orgName teamName username action : String),
      c.UpdateTeamMembership orgName teamName username action = none →
      ∃ url req,
        c.buildURL ("orgs/" ++ orgName ++ "/teams/" ++ teamName) none = .ok url ∧
        c.baseHttpClient.NewRequest "PATCH" url
          (c.requestOptions (some [("memberAction", action), ("member", username)])) = .ok req ∧
        c.baseHttpClient.Do req = none) := by
  refine ⟨?_, ?_, ?_, ?_, UpdateTeamMembership_request⟩
  · intro principal U entitlement er erid hp he hr
    rw [teamGrant_refs t (some principal) (some entitlement)
      { ResourceType := "user", Resource := U } erid
      (by simp [Option.bind, hp]) (by simp [Option.bind, he, hr])]
    simp
  · intro grant principal pid entitlement er erid hp hid he hr hrid
    rw [teamRevoke_refs t (some grant) pid erid
      (by simp [Option.bind, hp, hid]) (by simp [Option.bind, he, hr, hrid])]
    simp
  · intro principal entitlement
    cases hp : principal.bind (fun p => p.Id) with
    | none =>
      simp [teamBuilder.Grant, hp]
    | some pid =>
      cases he : (entitlement.bind (fun e => e.Resource)).bind (fun r => r.Id) with
      | none => simp [teamBuilder.Grant, hp, he]
      | some erid =>
        rw [teamGrant_refs t principal entitlement pid erid hp he]
        by_cases hu : pid.ResourceType = "user"
        · simp [hu]
        · simp [hu]
  · intro grant
    cases hp : (grant.bind (fun g => g.Principal)).bind (fun p => p.Id) with
    | none => simp [teamBuilder.Revoke, hp]
    | some pid =>
      cases he : ((grant.bind (fun g => g.Entitlement)).bind (fun e => e.Resource)).bind
          (fun r => r.Id) with
      | none => simp [teamBuilder.Revoke, hp, he]
      | some erid =>
        rw [teamRevoke_refs t grant pid erid hp he]
        simp

/-- C13 at the organization `ACME`: granting the team `devs` to bob adds him, revoking his
grant removes him. -/
theorem C13_team_provisioning_witness :
    ((acmeTeamBuilder.Grant (some (userPrincipal "bob")) (some devsEntitlement)).calls
        = [Call.UpdateTeamMembership "ACME" "devs" "bob" "add"] ∧
      ((acmeTeamBuilder.Grant (some (userPrincipal "bob")) (some devsEntitlement)).err ≠ none ↔
        acmeClient.UpdateTeamMembership "ACME" "devs" "bob" "add" ≠ none)) ∧
    ((acmeTeamBuilder.Revoke (some (devsGrant "bob"))).calls
        = [Call.UpdateTeamMembership "ACME" "devs" "bob" "remove"] ∧
      ((acmeTeamBuilder.Revoke (some (devsGrant "bob"))).err ≠ none ↔
        acmeClient.UpdateTeamMembership "ACME" "devs" "bob" "remove" ≠ none)) :=
  ⟨(C13_team_provisioning acmeTeamBuilder).1 (userPrincipal "bob") "bob" devsEntitlement
      devsPrincipal { ResourceType := "team", Resource := "devs" } rfl rfl rfl,
   (C13_team_provisioning acmeTeamBuilder).2.1 (devsGrant "bob") (userPrincipal "bob")
      { ResourceType := "user", Resource := "bob" } devsEntitlement devsPrincipal
      { ResourceType := "team", Resource := "devs" } rfl rfl rfl rfl rfl⟩

/-! ## Injectivity of the organization grant id -/

/-- The slug computed for a member is `admin` or `member`. -/
theorem entSlug_cases (member : User) : entSlug member = "admin" ∨ entSlug member = "member" := by
  unfold entSlug
  split
  · exact Or.inl rfl
  · exact Or.inr rfl

/-- Within one org, the grant id determines the login and the slug. -/
theorem grantID_injective (O L1 L2 S1 S2 : String)
    (hS1 : S1 = "admin" ∨ S1 = "member") (hS2 : S2 = "admin" ∨ S2 = "member")
    (h : formatResourceID ["org", O, "grant", L1, S1]
      = formatResourceID ["org", O, "grant", L2, S2]) :
    L1 = L2 ∧ S1 = S2 := by
  rw [formatResourceID_grant, formatResourceID_grant] at h
  obtain ⟨hs, hl⟩ := grantID_eq_split O O L2 L1 S1 S2 hS1 hS2 h
  rw [str_append_left_cancel] at hl
  exact ⟨hl, hs⟩

/-- C14: within one org the grant id determines the login and the slug, whatever the
logins contain: for slugs among `admin` and `member`, equal ids
`formatResourceID("org", O, "grant", L, S)` have equal logins and equal slugs. Hence the
grants `orgBuilder.Grants` emits for two members of a page with different logins have
different ids, and a page without repeated logins gives grants without repeated ids. -/
theorem C14_grant_id_injective (o : orgBuilder) (resource : Resource)
    (rid : ResourceId) (pToken : Option Token) (resp : ListUsersResponse)
    (hres : resource.Id = some rid)
    (hpage : o.client.ListUsers o.orgName ((pToken.map Token.Token).getD "") = .ok resp) :
    (∀ O L1 L2 S1 S2 : String,
      (S1 = "admin" ∨ S1 = "member") → (S2 = "admin" ∨ S2 = "member") →
      formatResourceID ["org", O, "grant", L1, S1]
        = formatResourceID ["org", O, "grant", L2, S2] →
      L1 = L2 ∧ S1 = S2) ∧
    ∃ res, o.Grants (some resource) pToken = some res ∧
      (∀ (i j : Nat) (m1 m2 : User) (g1 g2 : Grant),
        resp.Members[i]? = some m1 → resp.Members[j]? = some m2 →
        res.rv[i]? = some g1 → res.rv[j]? = some g2 →
        m1.User.GithubLogin ≠ m2.User.GithubLogin → g1.Id ≠ g2.Id) ∧
      ((resp.Members.map (fun m => m.User.GithubLogin)).Nodup →
        (res.rv.map (fun g => g.Id)).Nodup) := by
  refine ⟨grantID_injective, _, orgGrants_ok o resource rid pToken resp hres hpage, ?_, ?_⟩
  · intro i j m1 m2 g1 g2 h1 h2 hg1 hg2 hne
    simp only [List.getElem?_map, h1, h2, Option.map_some', Option.some.injEq] at hg1 hg2
    subst hg1 hg2
    intro h
    exact hne (grantID_injective _ _ _ _ _ (entSlug_cases m1) (entSlug_cases m2) h).1
  · intro hnd
    simp only [List.map_map]
    refine List.Nodup.map_on ?_ (List.Nodup.of_map _ hnd)
    intro x hx y hy hxy
    have hl := (grantID_injective _ _ _ _ _ (entSlug_cases x) (entSlug_cases y) hxy).1
    exact List.inj_on_of_nodup_map hnd hx hy hl

/-- C14 at the organization `ACME` with the members alice and bob. -/
theorem C14_grant_id_injective_witness :
    ∃ res, acmeOrgBuilder.Grants (some acmeOrg) none = some res ∧
      (∀ (i j : Nat) (m1 m2 : User) (g1 g2 : Grant),
        [alice, bob][i]? = some m1 → [alice, bob][j]? = some m2 →
        res.rv[i]? = some g1 → res.rv[j]? = some g2 →
        m1.User.GithubLogin ≠ m2.User.GithubLogin → g1.Id ≠ g2.Id) ∧
      (([alice, bob].map (fun m => m.User.GithubLogin)).Nodup →
        (res.rv.map (fun g => g.Id)).Nodup) :=
  (C14_grant_id_injective acmeOrgBuilder acmeOrg
      { ResourceType := "organization", Resource := "ACME" } none
      { Members := [alice, bob], ContinuationToken := "" } rfl rfl).2

end Pulumi
